import Mathlib

/-!
Verification of the KALA credit-validation pipeline (`src/api/index.py`).

The Python module is shallowly embedded: dynamic Python/JSON values become
the inductive type `PyVal`, Python exceptions become the `PyErr` error type
of an `Except` monad, and every operation that the source performs on a
dynamic value (`dict.get`, `str.upper`, `int(...)`, slicing, iteration,
truthiness, `or`-chains) is modelled by a total Lean function that returns
`Except PyErr _`, raising exactly where CPython raises.

External effects (the upstream HTTP platform, the Anthropic client,
`json.loads`, the database) are parameters of the embedded functions:
an HTTP call is a pre-supplied response, the reasoning service is an oracle
`Nat → AttemptResult` indexed by attempt number, and `json.loads` is an
oracle `String → Option PyVal`.
-/

set_option autoImplicit false

namespace Kala

/-- Python exceptions that the embedded code can raise.  `http` is
`fastapi.HTTPException` (status code and detail); `httpStatus` is
`httpx.HTTPStatusError` from `raise_for_status`; the rest mirror the
built-in exception classes that the source can hit. -/
inductive PyErr where
  | http (status : Nat) (detail : String)
  | httpStatus (code : Nat)
  | valueError (msg : String)
  | typeError (msg : String)
  | attrError (msg : String)
  | keyError (msg : String)
  | indexError
  | jsonError (msg : String)
  | apiError (msg : String)
  | validationError (msg : String)
  | dbError (msg : String)
deriving Repr

/-- Result of `str(e)` on an exception, used for `error_message` fields. -/
def PyErr.msg : PyErr → String
  | .http _ d => d
  | .httpStatus c => "HTTP status error " ++ toString c
  | .valueError m => m
  | .typeError m => m
  | .attrError m => m
  | .keyError m => m
  | .indexError => "list index out of range"
  | .jsonError m => m
  | .apiError m => m
  | .validationError m => m
  | .dbError m => m

/-- Whether the exception is a `fastapi.HTTPException` (the class the
orchestrator re-raises instead of converting to a structured result). -/
def PyErr.isHTTP : PyErr → Bool
  | .http _ _ => true
  | _ => false

/-- Dynamic Python/JSON values as the source manipulates them: `None`,
booleans, integers, strings, lists and string-keyed dicts.  (The claims
under verification never depend on float-specific behaviour, so numbers
are modelled as integers.) -/
inductive PyVal where
  | none
  | bool (b : Bool)
  | int (n : Int)
  | str (s : String)
  | list (xs : List PyVal)
  | dict (xs : List (String × PyVal))
deriving Repr

/-- Python truthiness: `None`, `False`, `0`, `""`, `[]`, `{}` are falsy. -/
def PyVal.truthy : PyVal → Bool
  | .none => false
  | .bool b => b
  | .int n => decide (n ≠ 0)
  | .str s => decide (s ≠ "")
  | .list xs => !xs.isEmpty
  | .dict xs => !xs.isEmpty

/-- Python `a or b` (with `a` already evaluated). -/
def pyOr (a b : PyVal) : PyVal := if a.truthy then a else b

/-- First binding of key `k` in an association list (Python dict lookup). -/
def dictLookup (xs : List (String × PyVal)) (k : String) : Option PyVal :=
  (xs.find? (fun p => p.1 == k)).map (fun p => p.2)

/-- `v.get(k, dflt)`: returns the stored value (or `dflt`) when `v` is a
dict, raises `AttributeError` otherwise — exactly as CPython does for
`None.get`, `5 .get`, `[].get`, ... . -/
def PyVal.get (v : PyVal) (k : String) (dflt : PyVal) : Except PyErr PyVal :=
  match v with
  | .dict xs => .ok ((dictLookup xs k).getD dflt)
  | _ => .error (.attrError "object has no attribute get")

/-- Character-wise ASCII upper-casing, the fragment of `str.upper` the
source relies on (all its keywords are ASCII). -/
def pyUpperStr (s : String) : String := String.mk (s.toList.map Char.toUpper)

/-- Character-wise ASCII lower-casing (used only to state
case-insensitivity of the keyword matching). -/
def pyLowerStr (s : String) : String := String.mk (s.toList.map Char.toLower)

/-- `v.upper()`: defined on strings, `AttributeError` otherwise. -/
def PyVal.upper : PyVal → Except PyErr String
  | .str s => .ok (pyUpperStr s)
  | _ => .error (.attrError "object has no attribute upper")

/-- Digit-string accumulation for `int(str)`. -/
def parseDigitsAux : List Char → Nat → Option Nat
  | [], acc => some acc
  | c :: cs, acc =>
    if c.isDigit then parseDigitsAux cs (acc * 10 + (c.toNat - 48)) else Option.none

/-- Python `int(s)` on a string: optional sign, decimal digits,
surrounding whitespace allowed. -/
def parsePyInt (s : String) : Option Int :=
  match (s.trim).toList with
  | [] => Option.none
  | '-' :: cs =>
    match cs with
    | [] => Option.none
    | _ => (parseDigitsAux cs 0).map (fun n => -(n : Int))
  | '+' :: cs =>
    match cs with
    | [] => Option.none
    | _ => (parseDigitsAux cs 0).map (fun n => (n : Int))
  | cs => (parseDigitsAux cs 0).map (fun n => (n : Int))

/-- Python `int(v)`: identity on ints, `True`/`False` become `1`/`0`,
strings are parsed (raising `ValueError` on failure), everything else
raises `TypeError`. -/
def pyInt : PyVal → Except PyErr Int
  | .bool b => .ok (if b then 1 else 0)
  | .int n => .ok n
  | .str s =>
    match parsePyInt s with
    | some n => .ok n
    | Option.none => .error (.valueError "invalid literal for int()")
  | _ => .error (.typeError "int() argument must be a string or a number")

/-- Python `v[:n]`: defined on strings and lists, `TypeError` otherwise. -/
def pySlice : PyVal → Nat → Except PyErr PyVal
  | .str s, n => .ok (.str (String.mk (s.toList.take n)))
  | .list xs, n => .ok (.list (xs.take n))
  | _, _ => .error (.typeError "object is not subscriptable")

/-- Python `v[0]`: head of a list, first character of a string; dicts
raise `KeyError`, everything else `TypeError`. -/
def pyIndex0 : PyVal → Except PyErr PyVal
  | .list [] => .error .indexError
  | .list (x :: _) => .ok x
  | .str s =>
    match s.toList with
    | [] => .error .indexError
    | c :: _ => .ok (.str (String.mk [c]))
  | .dict _ => .error (.keyError "0")
  | _ => .error (.typeError "object is not subscriptable")

/-- Python `for x in v`: lists yield their elements, strings their
characters, dicts their keys; other values raise `TypeError`. -/
def pyIterate : PyVal → Except PyErr (List PyVal)
  | .list xs => .ok xs
  | .str s => .ok (s.toList.map (fun c => .str (String.mk [c])))
  | .dict xs => .ok (xs.map (fun p => .str p.1))
  | _ => .error (.typeError "object is not iterable")

/-- Does the character list start with the pattern? -/
def seqStartsWith : List Char → List Char → Bool
  | _, [] => true
  | [], _ :: _ => false
  | c :: cs, p :: ps => c == p && seqStartsWith cs ps

/-- Does the pattern occur as a contiguous subsequence? -/
def containsSeq (pat : List Char) : List Char → Bool
  | [] => seqStartsWith [] pat
  | c :: rest => seqStartsWith (c :: rest) pat || containsSeq pat rest

/-- Python `pat in hay` on strings (substring test). -/
def strContains (hay pat : String) : Bool := containsSeq pat.toList hay.toList

/-! ## Token cache (`TokenCache`, src/api/index.py lines 231-249)

The class-level mutable state `_token`/`_expires_at` becomes an explicit
state record; `datetime.now(timezone.utc)` becomes an explicit `now`
argument in seconds; `timedelta(minutes=5)` is 300 seconds. -/

/-- The two class attributes of `TokenCache`.  `_token` holds whatever
value was stored (the source never checks its type), `_expires_at` an
absolute expiry time in seconds. -/
structure TokenCacheState where
  token : Option PyVal
  expires_at : Option Int
deriving Repr

/-- The initial class state: no token ever stored. -/
def TokenCache.empty : TokenCacheState := ⟨Option.none, Option.none⟩

/-- `TokenCache.is_valid`: `if not cls._token or not cls._expires_at:
return False; return now < expires_at - 5min`.  Note `not cls._token` is
Python truthiness, so a stored falsy token (e.g. `""`) is invalid. -/
def TokenCache.is_valid (st : TokenCacheState) (now : Int) : Bool :=
  match st.token, st.expires_at with
  | some t, some exp => t.truthy && decide (now < exp - 300)
  | _, _ => false

/-- `TokenCache.set_token(token, expires_in)`: overwrites both fields. -/
def TokenCache.set_token (now : Int) (tok : PyVal) (expires_in : Int) : TokenCacheState :=
  ⟨some tok, some (now + expires_in)⟩

/-- `TokenCache.get_token`: the stored token if `is_valid`, else `None`. -/
def TokenCache.get_token (st : TokenCacheState) (now : Int) : Option PyVal :=
  if TokenCache.is_valid st now then st.token else Option.none

/-! ## Evidence consolidation (`consolidate_data`, src/api/index.py lines 367-438) -/

/-- The fixed payer-category list scanned in source order (line 379). -/
def PAG_TYPES : List String :=
  ["COLPENSIONES", "FOPEP", "FIDUPREVISORA", "CASUR", "CREMIL", "POSITIVA"]

/-- The loop `for t in [...]: if t in pag_upper: pag_type = t; break`
starting from `pag_type = "OTRAS"` (lines 378-382). -/
def pagType (pagUpper : String) : String :=
  (PAG_TYPES.find? (fun t => strContains pagUpper t)).getD "OTRAS"

/-- Line 376: `employment.get("company_name") or
employment.get("employer_name") or "DESCONOCIDA"`. -/
def pickPagaduria (employment : PyVal) : Except PyErr PyVal := do
  let c ← employment.get "company_name" .none
  if c.truthy then
    pure c
  else
    let e ← employment.get "employer_name" .none
    pure (pyOr e (.str "DESCONOCIDA"))

/-- The loan-type keyword set of line 391. -/
def LOAN_KEYWORDS : List String := ["LIBRANZA", "PRESTAMO", "CREDITO", "BCO", "BANCO"]

/-- Line 390: `(d.get("description") or "").upper()`. -/
def dedDescUpper (d : PyVal) : Except PyErr String := do
  let v ← d.get "description" .none
  PyVal.upper (pyOr v (.str ""))

/-- The record appended for a classified deduction (lines 392 and 394):
`{"descripcion": d.get("description"), "monto": d.get("amount")}`. -/
def dedEntry (d : PyVal) : Except PyErr PyVal := do
  let desc ← d.get "description" .none
  let amt ← d.get "amount" .none
  pure (.dict [("descripcion", desc), ("monto", amt)])

/-- `any(k in desc for k in ["LIBRANZA", "PRESTAMO", "CREDITO", "BCO", "BANCO"])`. -/
def hitsLoan (descUpper : String) : Bool :=
  LOAN_KEYWORDS.any (fun k => strContains descUpper k)

/-- `"EMBARGO" in desc`. -/
def hitsEmbargo (descUpper : String) : Bool := strContains descUpper "EMBARGO"

/-- The classification loop of lines 389-394, producing
`(libranzas_ocr, embargos_ocr)` in source order.  The two `if`s are
independent, so one deduction can land in both lists. -/
def classifyDeductions : List PyVal → Except PyErr (List PyVal × List PyVal)
  | [] => .ok ([], [])
  | d :: rest => do
    let u ← dedDescUpper d
    let e ← dedEntry d
    let (libs, embs) ← classifyDeductions rest
    pure ((if hitsLoan u then e :: libs else libs),
          (if hitsEmbargo u then e :: embs else embs))

/-- The loan-side selector of the classification loop, as a total
function. -/
def loanSelect (d : PyVal) : Option PyVal :=
  match dedDescUpper d, dedEntry d with
  | .ok u, .ok e => if hitsLoan u then some e else Option.none
  | _, _ => Option.none

/-- The garnishment-side selector of the classification loop. -/
def embargoSelect (d : PyVal) : Option PyVal :=
  match dedDescUpper d, dedEntry d with
  | .ok u, .ok e => if hitsEmbargo u then some e else Option.none
  | _, _ => Option.none

/-- `Except`-valued map used for the projection loops and comprehensions. -/
def mapExcept (f : PyVal → Except PyErr PyVal) : List PyVal → Except PyErr (List PyVal)
  | [] => .ok []
  | x :: xs => do
    let y ← f x
    let ys ← mapExcept f xs
    pure (y :: ys)

/-- One iteration of the bureau-loan projection loop (lines 399-406). -/
def projectLoan (loan : PyVal) : Except PyErr PyVal := do
  let acc ← loan.get "accounts" (.dict [])
  let lender ← acc.get "lenderName" .none
  let atype ← acc.get "accountType" .none
  let debtV ← acc.get "totalDebt" .none
  let debt ← pyInt (pyOr debtV (.int 0))
  let instV ← acc.get "installments" .none
  let inst ← pyInt (pyOr instV (.int 0))
  let isLib ← acc.get "typePayrollDeductionLoan" .none
  let pastDue ← acc.get "pastDueMax" .none
  let pbV ← acc.get "paymentBehavior" .none
  let pb ← pySlice (pyOr pbV (.str "")) 12
  let sector ← acc.get "sector" .none
  pure (.dict [("entity", lender), ("type", atype), ("debt", .int debt),
    ("installment", .int inst), ("isLibranza", isLib), ("pastDueMax", pastDue),
    ("paymentBehavior12m", pb), ("sector", sector)])

/-- One element of the legal-process comprehension (lines 411-413). -/
def projectProcess (p : PyVal) : Except PyErr PyVal := do
  let ent ← p.get "entity" .none
  let role ← p.get "roleDefendant" .none
  let popen ← p.get "processOpen" .none
  let ptype ← p.get "processType" .none
  pure (.dict [("entity", ent), ("roleDefendant", role),
    ("processOpen", popen), ("processType", ptype)])

/-- One element of the task comprehension (line 437). -/
def projectTask (t : PyVal) : Except PyErr PyVal := do
  let tid ← t.get "id" .none
  let src ← t.get "nameFrom" .none
  let av ← t.get "allTaskValidated" .none
  pure (.dict [("id", tid), ("source", src), ("allValidated", av)])

/-- One element of the deduction output comprehension (line 423):
`{"description": d.get("description"), "amount": d.get("amount")}`. -/
def dedOut (d : PyVal) : Except PyErr PyVal := do
  let desc ← d.get "description" .none
  let amt ← d.get "amount" .none
  pure (.dict [("description", desc), ("amount", amt)])

/-- The dict literal returned by `consolidate_data` (lines 418-438),
abstracted over the values it embeds.  The `cantidadEmbargos` field is,
by construction, the length of the `embargos` list. -/
def consolidatedDoc (txn_id : String) (personal pagaduria : PyVal)
    (pag_type : String) (gross net : PyVal)
    (dedsOut libranzas_ocr embargos_ocr : List PyVal)
    (scoring fullName cc alerts : PyVal) (loans_buro : List PyVal)
    (sarlaft nproc : PyVal) (processes tasksOut : List PyVal) : PyVal :=
  .dict [
    ("txn", .str txn_id),
    ("ocr", .dict [
      ("personal", personal),
      ("pagaduria", pagaduria),
      ("pagaduriaType", .str pag_type),
      ("salary", .dict [("gross", gross), ("net", net)]),
      ("deductions", .list dedsOut),
      ("libranzasIdentificadas", .list libranzas_ocr),
      ("embargos", .list embargos_ocr),
      ("cantidadEmbargos", .int embargos_ocr.length)]),
    ("buro", .dict [
      ("score", scoring),
      ("name", fullName),
      ("cc", cc),
      ("alerts", alerts),
      ("loans", .list loans_buro)]),
    ("truora", .dict [
      ("enrichment", .dict [
        ("sarlaftCompliance", sarlaft),
        ("numberOfProcesses", nproc)]),
      ("processes", .list processes)]),
    ("tasks", .list tasksOut)]

/-- Line 370: `ocr_doc = ocr[0] if ocr else {}`. -/
def ocrPrimary (ocr : PyVal) : Except PyErr PyVal :=
  if ocr.truthy then pyIndex0 ocr else pure (.dict [])

/-- `consolidate_data(txn_id, ocr, buro, truora, tasks)`
(src/api/index.py lines 367-438), with each dynamic operation raising
exactly where CPython would. -/
def consolidate_data (txn_id : String) (ocr buro truora tasks : PyVal) :
    Except PyErr PyVal := do
  let ocr_doc ← ocrPrimary ocr
  let std ← ocr_doc.get "standardizedData" (.dict [])
  let salary ← std.get "salary_info" (.dict [])
  let personal ← std.get "personal_info" (.dict [])
  let employment ← std.get "employment_info" (.dict [])
  let pagaduria ← pickPagaduria employment
  let pag_upper ← pagaduria.upper
  let pag_type := pagType pag_upper
  let deductionsV ← salary.get "deduction_details" (.list [])
  let deductions ← pyIterate deductionsV
  let (libranzas_ocr, embargos_ocr) ← classifyDeductions deductions
  let loansV ← buro.get "outstandingLoans" (.list [])
  let loansL ← pyIterate loansV
  let loans_buro ← mapExcept projectLoan loansL
  let enrichment ← truora.get "enrichment" (.dict [])
  let processesV ← enrichment.get "processes" .none
  let processesL ← pyIterate (pyOr processesV (.list []))
  let processes ← mapExcept projectProcess processesL
  let dedsOut ← mapExcept dedOut deductions
  let gross ← salary.get "gross_salary" .none
  let net ← salary.get "net_salary" .none
  let score ← buro.get "score" (.dict [])
  let scoring ← score.get "scoring" .none
  let basic ← buro.get "basicInformation" (.dict [])
  let fullName ← basic.get "fullName" .none
  let cc ← basic.get "documentIdentificationNumber" .none
  let alerts ← buro.get "alert" .none
  let sarlaft ← enrichment.get "sarlaftCompliance" .none
  let nproc ← enrichment.get "numberOfProcesses" .none
  let tasksL ← pyIterate tasks
  let tasksOut ← mapExcept projectTask tasksL
  pure (consolidatedDoc txn_id personal pagaduria pag_type gross net dedsOut
    libranzas_ocr embargos_ocr scoring fullName cc alerts loans_buro sarlaft
    nproc processes tasksOut)

/-- Field lookup on a consolidated (dict) document. -/
def docField (doc : PyVal) (k : String) : Option PyVal :=
  match doc with
  | .dict xs => dictLookup xs k
  | _ => Option.none

/-- Two-level field lookup on a consolidated document. -/
def docField2 (doc : PyVal) (k1 k2 : String) : Option PyVal :=
  match docField doc k1 with
  | some v => docField v k2
  | Option.none => Option.none

/-! ### Well-formed inputs for `consolidate_data`

`consolidate_data` does raise on wrong-typed nested fields (see the C3
counterexample), so the "never raises" guarantee only holds on inputs
whose consulted fields, where present and truthy, carry the type the
source schema expects.  The predicates below spell that out, field by
consulted field. -/

/-- Dict lookup with a default, as `xs.get(k, d)` yields it. -/
def fieldD (xs : List (String × PyVal)) (k : String) (d : PyVal) : PyVal :=
  (dictLookup xs k).getD d

/-- Is the value a string? -/
def isStrB : PyVal → Bool
  | .str _ => true
  | _ => false

/-- Is the value a dict? -/
def isDictB : PyVal → Bool
  | .dict _ => true
  | _ => false

/-- A value that is either a string or falsy: safe for
`(v or "").upper()` and `(v or "")[:12]`. -/
def strOrFalsy (v : PyVal) : Bool := isStrB v || !v.truthy

/-- A value that is either an integer or falsy: safe for `int(v or 0)`. -/
def intOrFalsy (v : PyVal) : Bool :=
  (match v with | .int _ => true | _ => false) || !v.truthy

/-- A deduction record: a dict whose `description`, when truthy, is a
string. -/
def wfDed (v : PyVal) : Bool :=
  match v with
  | .dict xs => strOrFalsy (fieldD xs "description" .none)
  | _ => false

/-- The `employment_info` sub-document: a dict whose selected employer
name (first truthy of `company_name`, `employer_name`) is a string. -/
def wfEmployment (v : PyVal) : Bool :=
  match v with
  | .dict xs =>
    let c := fieldD xs "company_name" .none
    let e := fieldD xs "employer_name" .none
    if c.truthy then isStrB c else if e.truthy then isStrB e else true
  | _ => false

/-- The `salary_info` sub-document: a dict whose `deduction_details` is a
list of well-formed deductions. -/
def wfSalary (v : PyVal) : Bool :=
  match v with
  | .dict xs =>
    match fieldD xs "deduction_details" (.list []) with
    | .list ds => ds.all wfDed
    | _ => false
  | _ => false

/-- The `standardizedData` sub-document. -/
def wfStd (v : PyVal) : Bool :=
  match v with
  | .dict xs =>
    wfSalary (fieldD xs "salary_info" (.dict [])) &&
    wfEmployment (fieldD xs "employment_info" (.dict []))
  | _ => false

/-- The primary OCR document (`ocr[0]`). -/
def wfOcrDoc (v : PyVal) : Bool :=
  match v with
  | .dict xs => wfStd (fieldD xs "standardizedData" (.dict []))
  | _ => false

/-- The OCR input: falsy (defaulted to `{}`), or a list whose head is a
well-formed document. -/
def wfOcr (v : PyVal) : Bool :=
  if v.truthy then
    match v with
    | .list (d0 :: _) => wfOcrDoc d0
    | _ => false
  else true

/-- One `outstandingLoans` entry. -/
def wfLoan (v : PyVal) : Bool :=
  match v with
  | .dict xs =>
    match fieldD xs "accounts" (.dict []) with
    | .dict acc =>
      intOrFalsy (fieldD acc "totalDebt" .none) &&
      intOrFalsy (fieldD acc "installments" .none) &&
      strOrFalsy (fieldD acc "paymentBehavior" .none)
    | _ => false
  | _ => false

/-- The bureau report input. -/
def wfBuro (v : PyVal) : Bool :=
  match v with
  | .dict xs =>
    (match fieldD xs "outstandingLoans" (.list []) with
     | .list ls => ls.all wfLoan
     | _ => false) &&
    isDictB (fieldD xs "score" (.dict [])) &&
    isDictB (fieldD xs "basicInformation" (.dict []))
  | _ => false

/-- The background-check input. -/
def wfTruora (v : PyVal) : Bool :=
  match v with
  | .dict xs =>
    match fieldD xs "enrichment" (.dict []) with
    | .dict es =>
      let p := fieldD es "processes" .none
      if p.truthy then
        match p with
        | .list ps => ps.all isDictB
        | _ => false
      else true
    | _ => false
  | _ => false

/-- The task-list input. -/
def wfTasks (v : PyVal) : Bool :=
  match v with
  | .list ts => ts.all isDictB
  | _ => false

/-- All four dynamic inputs of `consolidate_data` are well-formed. -/
def wfInputs (ocr buro truora tasks : PyVal) : Bool :=
  wfOcr ocr && wfBuro buro && wfTruora truora && wfTasks tasks

/-- Every field the specification declares for the canonical evidence
document is present. -/
def hasDeclaredFields (doc : PyVal) : Bool :=
  (docField doc "txn").isSome &&
  (docField2 doc "ocr" "personal").isSome &&
  (docField2 doc "ocr" "pagaduria").isSome &&
  (docField2 doc "ocr" "pagaduriaType").isSome &&
  (docField2 doc "ocr" "salary").isSome &&
  (docField2 doc "ocr" "deductions").isSome &&
  (docField2 doc "ocr" "libranzasIdentificadas").isSome &&
  (docField2 doc "ocr" "embargos").isSome &&
  (docField2 doc "ocr" "cantidadEmbargos").isSome &&
  (docField2 doc "buro" "score").isSome &&
  (docField2 doc "buro" "name").isSome &&
  (docField2 doc "buro" "cc").isSome &&
  (docField2 doc "buro" "alerts").isSome &&
  (docField2 doc "buro" "loans").isSome &&
  (docField2 doc "truora" "enrichment").isSome &&
  (docField2 doc "truora" "processes").isSome &&
  (docField doc "tasks").isSome

/-! ## Reasoning invoker (`call_claude`, src/api/index.py lines 481-524)

`client.messages.create` is an oracle `Nat → AttemptResult` giving, for
each attempt index, either a raised exception or a response (raw text and
usage numbers).  `json.loads` is an oracle `String → Option PyVal`
(`Option.none` = `JSONDecodeError`). -/

/-- `MAX_CLAUDE_RETRIES = 2` (line 53). -/
def MAX_CLAUDE_RETRIES : Nat := 2

/-- Outcome of one `client.messages.create` call. -/
inductive AttemptResult where
  | apiError (e : PyErr)
  | response (raw : String) (tokens_input tokens_output latency_ms : Int)
deriving Repr

/-- The `metrics` dict as returned on the success path (line 489
initialisation, line 504 update). -/
structure ClaudeMetrics where
  retries : Nat
  tokens_input : Int
  tokens_output : Int
  latency_ms : Int
  raw_response : Option String
deriving Repr

/-- The prefix of a character list up to and including the LAST occurrence
of `ch`, or `Option.none` when `ch` does not occur.  This is how the greedy
regex `\x7b[\s\S]*\x7d` consumes text after the opening brace. -/
def upToLast (ch : Char) : List Char → Option (List Char)
  | [] => Option.none
  | c :: rest =>
    match upToLast ch rest with
    | some l => some (c :: l)
    | Option.none => if c == ch then some [c] else Option.none

/-- The span matched by `re.search(r'\x7b[\s\S]*\x7d', raw)` on the
character list: from the first opening brace to the last closing brace
after it. -/
def extractSpanL (cs : List Char) : Option (List Char) :=
  match cs.dropWhile (fun c => c != '{') with
  | [] => Option.none
  | c :: rest => (upToLast '}' rest).map (fun l => c :: l)

/-- Lines 512-513: locate the single top-level JSON object in the raw
response text. -/
def extractSpan (raw : String) : Option String :=
  (extractSpanL raw.toList).map String.mk

/-- The body of one iteration of the retry loop (lines 492-519): call the
API, record metrics, extract and parse the JSON span; any failure becomes
the attempt's exception. -/
def attemptOnce (parse : String → Option PyVal) (api : Nat → AttemptResult)
    (attempt : Nat) : Except PyErr (PyVal × ClaudeMetrics) :=
  match api attempt with
  | .apiError e => .error e
  | .response raw tin tout lat =>
    match extractSpan raw with
    | Option.none => .error (.valueError "No JSON found")
    | some span =>
      match parse span with
      | Option.none => .error (.jsonError "Expecting value")
      | some parsed => .ok (parsed, ⟨attempt, tin, tout, lat, some raw⟩)

/-- The retry loop `for attempt in range(MAX_CLAUDE_RETRIES + 1)` with
`if attempt == MAX_CLAUDE_RETRIES: raise` (lines 491-524), written by
recursion on the number of attempts still allowed after the current one:
when none remain, the current attempt's exception propagates. -/
def callClaudeAux (parse : String → Option PyVal) (api : Nat → AttemptResult)
    (attempt : Nat) : Nat → Except PyErr (PyVal × ClaudeMetrics)
  | 0 => attemptOnce parse api attempt
  | remaining + 1 =>
    match attemptOnce parse api attempt with
    | .ok res => .ok res
    | .error _ => callClaudeAux parse api (attempt + 1) remaining

/-- `call_claude(consolidated)` (lines 481-524).  The consolidated
document itself only feeds the prompt inside the oracle, so it is not a
parameter of the model. -/
def call_claude (parse : String → Option PyVal) (api : Nat → AttemptResult) :
    Except PyErr (PyVal × ClaudeMetrics) :=
  callClaudeAux parse api 0 MAX_CLAUDE_RETRIES

/-! ## Upstream data client (`KalaAPIClient`, src/api/index.py lines 256-360)

Each HTTP call is a pre-supplied response (status plus parsed JSON body);
`raise_for_status` raises for any status ≥ 400. -/

/-- An `httpx` response: status code and parsed JSON body. -/
structure HttpResp where
  status : Nat
  body : PyVal
deriving Repr

/-- The four upstream responses one run of `get_transaction_data` can
consume (auth, task inbox, applicant resolution, enrichment bundle). -/
structure KalaEnv where
  authResp : HttpResp
  tasksResp : HttpResp
  personResp : HttpResp
  extdataResp : HttpResp
deriving Repr

/-- `response.raise_for_status()`. -/
def raiseForStatus (r : HttpResp) : Except PyErr Unit :=
  if r.status ≥ 400 then .error (.httpStatus r.status) else .ok ()

/-- `KalaAPIClient._ensure_token` (lines 264-291): cached token if valid,
otherwise authenticate, require a truthy `token` field, cache it with the
advertised `expiresIn` (default 3600). -/
def ensure_token (st : TokenCacheState) (now : Int) (authResp : HttpResp) :
    Except PyErr (PyVal × TokenCacheState) :=
  match TokenCache.get_token st now with
  | some t => .ok (t, st)
  | Option.none => do
    let _ ← raiseForStatus authResp
    let tokenV ← authResp.body.get "token" .none
    if tokenV.truthy then do
      let expV ← authResp.body.get "expiresIn" (.int 3600)
      let expn ← pyInt expV
      pure (tokenV, TokenCache.set_token now tokenV expn)
    else
      .error (.http 500 "Failed to get Kala API token")

/-- The bundle `get_transaction_data` returns (lines 356-360). -/
structure TxnData where
  person_id : PyVal
  ocr : PyVal
  buro : PyVal
  truora : PyVal
  tasks : List PyVal
  latency_ms : Int
deriving Repr

/-- `KalaAPIClient.get_transaction_data(transaction_id)` (lines 293-360):
three sequential calls under one token, then extraction of the three
sub-documents with a 422 `HTTPException` naming the first missing one. -/
def get_transaction_data (transaction_id : String) (st : TokenCacheState)
    (now : Int) (env : KalaEnv) (elapsed_ms : Int) :
    Except PyErr (TxnData × TokenCacheState) := do
  let (_tok, st') ← ensure_token st now env.authResp
  let _ ← raiseForStatus env.tasksResp
  let tasks_data := env.tasksResp.body
  let _ ← raiseForStatus env.personResp
  let person_id ← env.personResp.body.get "id" .none
  if !person_id.truthy then
    .error (.http 404 ("Person not found for transaction " ++ transaction_id))
  else do
    let _ ← raiseForStatus env.extdataResp
    let extdata := env.extdataResp.body
    let ocr ← extdata.get "summaryTrebolOcr" .none
    let buro ← extdata.get "customSummaryBuro" .none
    let truora ← extdata.get "summaryTruoraBackgroundChecks" .none
    if !ocr.truthy then
      .error (.http 422 "OCR data not available")
    else if !buro.truthy then
      .error (.http 422 "Buró data not available")
    else if !truora.truthy then
      .error (.http 422 "Truora data not available")
    else
      pure ({ person_id := person_id, ocr := ocr, buro := buro, truora := truora,
              tasks := match tasks_data with | .list xs => xs | _ => [],
              latency_ms := elapsed_ms }, st')

/-! ## Orchestrator (`validate_credit`, src/api/index.py lines 601-697)

The database is modelled by `DbEnv`: whether a session factory exists
(`SessionLocal and CreditValidationAudit` at line 611) and the outcome of
each fallible persistence call the endpoint makes — the success-path
`db.add`/`db.commit` (lines 660-661), the `db.refresh` (line 662), and
the `db.add`/`db.commit` inside the generic `except` handler (lines
691-692).  Each outcome is `Option.none` when the call returns normally
and `some e` when it raises `e`; in-memory operations (`SessionLocal()`,
attribute assignments on the ORM object, `db.close()`) do not raise.
Elapsed wall-clock time is an abstract `totalMs`.  Raising out of the
endpoint (the `except HTTPException: raise` branch, or a raising commit
inside the `except Exception` handler, which nothing catches) is the
`.error` case of the returned `response`. -/

/-- The database as one invocation of the endpoint sees it. -/
structure DbEnv where
  avail : Bool
  successCommitErr : Option PyErr
  refreshErr : Option PyErr
  errorCommitErr : Option PyErr
  genId : Nat
deriving Repr

/-- The `ValidationResponse` pydantic model (lines 201-213), with numeric
fields as integers. -/
structure ValidationResponse where
  transaction_id : String
  status : String
  decision : Option String := Option.none
  producto : Option String := Option.none
  monto_maximo : Option Int := Option.none
  plazo_maximo : Option Int := Option.none
  capacidad_disponible : Option Int := Option.none
  resumen : Option String := Option.none
  dictamen_completo : Option PyVal := Option.none
  error : Option String := Option.none
  latency_ms : Option Int := Option.none
  audit_id : Option Nat := Option.none
deriving Repr

/-- Pydantic validation of an `Optional[str]` field. -/
def coerceOptStr : PyVal → Except PyErr (Option String)
  | .none => .ok Option.none
  | .str s => .ok (some s)
  | _ => .error (.validationError "Input should be a valid string")

/-- Pydantic validation of an `Optional[int]` / `Optional[float]` field
(numbers modelled as integers). -/
def coerceOptNum : PyVal → Except PyErr (Option Int)
  | .none => .ok Option.none
  | .int n => .ok (some n)
  | _ => .error (.validationError "Input should be a valid number")

/-- Pydantic validation of an `Optional[dict]` field. -/
def coerceOptDict : PyVal → Except PyErr (Option PyVal)
  | .none => .ok Option.none
  | .dict xs => .ok (some (.dict xs))
  | _ => .error (.validationError "Input should be a valid dictionary")

/-- The validated field values of the success response before `audit_id`
is attached. -/
structure SuccessCore where
  decision : Option String
  producto : Option String
  monto_maximo : Option Int
  plazo_maximo : Option Int
  capacidad_disponible : Option Int
  resumen : Option String
  dictamen_completo : Option PyVal
deriving Repr

/-- Lines 645-646: `dictamen = parsed.get("dictamen", \x7b\x7d)` and
`capacidad = parsed.get("capacidadPago", \x7b\x7d)`. -/
def successPrelude (parsed : PyVal) : Except PyErr (PyVal × PyVal) := do
  let dictamen ← parsed.get "dictamen" (.dict [])
  let capacidad ← parsed.get "capacidadPago" (.dict [])
  pure (dictamen, capacidad)

/-- Lines 648-652 (executed only when the audit object exists): the audit
field assignments read `dictamen.get("decision")`, `.get("producto")`,
`.get("montoMaximo")` and `capacidad.get("capacidadDisponible")` BEFORE
the success commit; each read raises when its receiver is not a dict. -/
def auditFieldReads (dictamen capacidad : PyVal) : Except PyErr Unit := do
  let _ ← dictamen.get "decision" .none
  let _ ← dictamen.get "producto" .none
  let _ ← dictamen.get "montoMaximo" .none
  let _ ← capacidad.get "capacidadDisponible" .none
  pure ()

/-- Lines 670-676, the `ValidationResponse(...)` construction AFTER the
success commit: the field reads, `(parsed.get("resumen") or "")[:300]`,
and the pydantic validation of each field. -/
def successCore (dictamen capacidad parsed : PyVal) :
    Except PyErr SuccessCore := do
  let decisionV ← dictamen.get "decision" .none
  let productoV ← dictamen.get "producto" .none
  let montoV ← dictamen.get "montoMaximo" .none
  let plazoV ← dictamen.get "plazoMaximo" .none
  let capV ← capacidad.get "capacidadDisponible" .none
  let resumenV ← parsed.get "resumen" .none
  let resumenSliced ← pySlice (pyOr resumenV (.str "")) 300
  let decision ← coerceOptStr decisionV
  let producto ← coerceOptStr productoV
  let monto ← coerceOptNum montoV
  let plazo ← coerceOptNum plazoV
  let cap ← coerceOptNum capV
  let resumen ← coerceOptStr resumenSliced
  let dcomp ← coerceOptDict parsed
  pure ⟨decision, producto, monto, plazo, cap, resumen, dcomp⟩

/-- Assemble the success `ValidationResponse` (lines 670-676). -/
def toSuccessResponse (txn : String) (c : SuccessCore) (totalMs : Int)
    (auditId : Option Nat) : ValidationResponse :=
  { transaction_id := txn, status := "SUCCESS", decision := c.decision,
    producto := c.producto, monto_maximo := c.monto_maximo,
    plazo_maximo := c.plazo_maximo,
    capacidad_disponible := c.capacidad_disponible, resumen := c.resumen,
    dictamen_completo := c.dictamen_completo, error := Option.none,
    latency_ms := some totalMs, audit_id := auditId }

/-- The committed audit row, reduced to the fields the claims are about. -/
structure AuditRow where
  status : String
  error_message : Option String
  latency_total_ms : Int
deriving Repr

/-- Observable outcome of one `validate_credit` invocation: the HTTP-level
result (`.error` = exception raised past the endpoint), whether
`call_claude` was ever invoked, and the row this attempt has in the store
when control leaves the endpoint (`Option.none` = no row persisted; the
row is the one written by the last commit that returned normally). -/
structure VResult where
  response : Except PyErr ValidationResponse
  claudeCalled : Bool
  audit : Option AuditRow
deriving Repr

/-- The audit row committed by the success path (lines 655-661). -/
def successRow (totalMs : Int) : AuditRow :=
  { status := "SUCCESS", error_message := Option.none,
    latency_total_ms := totalMs }

/-- The two `except` branches (lines 678-693): an `HTTPException` is
re-raised untouched — no `db.add`/`db.commit` runs on that path; for any
other exception the handler tries to commit an `ERROR` audit row when the
store is available (lines 687-692) and then returns the structured error
response.  That `db.commit` is NOT guarded: when it raises, the database
exception propagates out of the endpoint and no structured result is
built; the store keeps whatever row an earlier successful commit wrote
(`priorAudit`). -/
def handleException (txn : String) (db : DbEnv) (totalMs : Int)
    (called : Bool) (priorAudit : Option AuditRow) (e : PyErr) : VResult :=
  if e.isHTTP then
    { response := .error e, claudeCalled := called, audit := priorAudit }
  else
    if db.avail then
      match db.errorCommitErr with
      | some e2 =>
        { response := .error e2, claudeCalled := called, audit := priorAudit }
      | Option.none =>
        { response := .ok { transaction_id := txn, status := "ERROR",
                            error := some e.msg, latency_ms := some totalMs },
          claudeCalled := called,
          audit := some { status := "ERROR", error_message := some e.msg,
                          latency_total_ms := totalMs } }
    else
      { response := .ok { transaction_id := txn, status := "ERROR",
                          error := some e.msg, latency_ms := some totalMs },
        claudeCalled := called, audit := priorAudit }

/-- `validate_credit(request)` (lines 601-697): acquire, consolidate,
check the Anthropic key, invoke the reasoning service, read the audit
fields, commit the audit row (`db.add`/`db.commit`/`db.refresh`, each of
which can raise into the surrounding `try`), build the response.
`db.genId` is the row id `db.refresh` reports on commit. -/
def validate_credit (txn : String) (db : DbEnv) (keySet : Bool)
    (st : TokenCacheState) (now : Int) (env : KalaEnv) (kalaMs : Int)
    (parse : String → Option PyVal) (api : Nat → AttemptResult)
    (totalMs : Int) : VResult :=
  match get_transaction_data txn st now env kalaMs with
  | .error e => handleException txn db totalMs false Option.none e
  | .ok (data, _st') =>
    match consolidate_data txn data.ocr data.buro data.truora (.list data.tasks) with
    | .error e => handleException txn db totalMs false Option.none e
    | .ok _consolidated =>
      if !keySet then
        handleException txn db totalMs false Option.none
          (.http 500 "Claude API not configured")
      else
        match call_claude parse api with
        | .error e => handleException txn db totalMs true Option.none e
        | .ok (parsed, _metrics) =>
          match successPrelude parsed with
          | .error e => handleException txn db totalMs true Option.none e
          | .ok (dictamen, capacidad) =>
            if db.avail then
              match auditFieldReads dictamen capacidad with
              | .error e => handleException txn db totalMs true Option.none e
              | .ok _ =>
                match db.successCommitErr with
                | some e2 => handleException txn db totalMs true Option.none e2
                | Option.none =>
                  match db.refreshErr with
                  | some e3 =>
                    handleException txn db totalMs true
                      (some (successRow totalMs)) e3
                  | Option.none =>
                    match successCore dictamen capacidad parsed with
                    | .error e =>
                      handleException txn db totalMs true
                        (some (successRow totalMs)) e
                    | .ok core =>
                      { response := .ok (toSuccessResponse txn core totalMs
                          (some db.genId)),
                        claudeCalled := true,
                        audit := some (successRow totalMs) }
            else
              match successCore dictamen capacidad parsed with
              | .error e => handleException txn db totalMs true Option.none e
              | .ok core =>
                { response := .ok (toSuccessResponse txn core totalMs
                    Option.none),
                  claudeCalled := true, audit := Option.none }

/-- Forget the `audit_id` field of a (possibly raised) response, to
compare business outcomes across audit-store availability. -/
def stripAuditId (r : Except PyErr ValidationResponse) :
    Except PyErr ValidationResponse :=
  r.map (fun resp => { resp with audit_id := Option.none })

/-! ### Concrete scenario inputs used by witnesses and counterexamples -/

/-- A deduction whose description contains both a loan keyword (`BANCO`)
and the garnishment keyword (`EMBARGO`). -/
def bothDed : PyVal :=
  .dict [("description", .str "Embargo Banco Popular"), ("amount", .int 50000)]

/-- The classified entry produced for `bothDed`. -/
def bothEntry : PyVal :=
  .dict [("descripcion", .str "Embargo Banco Popular"), ("monto", .int 50000)]

/-- OCR input whose only deduction is `bothDed`. -/
def bothOcr : PyVal :=
  .list [.dict [("standardizedData", .dict [("salary_info",
    .dict [("deduction_details", .list [bothDed])])])]]

/-- OCR input whose `company_name` is a number: `pagaduria.upper()`
raises `AttributeError` in CPython. -/
def badOcr : PyVal :=
  .list [.dict [("standardizedData", .dict [("employment_info",
    .dict [("company_name", .int 5)])])]]

/-- A cache state holding a valid token at time 0. -/
def cacheHit : TokenCacheState := ⟨some (.str "tk"), some 10000⟩

/-- An available, healthy audit store: every persistence call succeeds. -/
def dbUp : DbEnv := ⟨true, Option.none, Option.none, Option.none, 7⟩

/-- An unavailable audit store (`SessionLocal` is `None`). -/
def dbDown : DbEnv := ⟨false, Option.none, Option.none, Option.none, 7⟩

/-- An available store whose `db.commit` inside the generic `except`
handler raises (e.g. an `OperationalError` mid-outage). -/
def dbErrCommit : DbEnv :=
  ⟨true, Option.none, Option.none, some (.dbError "connection lost"), 7⟩

/-- Upstream responses for a fully successful acquisition. -/
def goodEnv : KalaEnv :=
  { authResp := ⟨200, .dict [("token", .str "tk"), ("expiresIn", .int 3600)]⟩,
    tasksResp := ⟨200, .list [.dict [("id", .int 1), ("nameFrom", .str "BURO"),
      ("allTaskValidated", .bool true)]]⟩,
    personResp := ⟨200, .dict [("id", .str "p1")]⟩,
    extdataResp := ⟨200, .dict [
      ("summaryTrebolOcr", .list [.dict []]),
      ("customSummaryBuro", .dict [("outstandingLoans", .list [])]),
      ("summaryTruoraBackgroundChecks", .dict [("enrichment",
        .dict [("numberOfProcesses", .int 0)])])]⟩ }

/-- Upstream responses whose enrichment bundle lacks the bureau summary
(`customSummaryBuro`). -/
def buroMissingEnv : KalaEnv :=
  { goodEnv with extdataResp := ⟨200, .dict [
      ("summaryTrebolOcr", .list [.dict []]),
      ("summaryTruoraBackgroundChecks", .dict [("enrichment",
        .dict [("numberOfProcesses", .int 0)])])]⟩ }

/-- The two-character string `"\x7b\x7d"` (an empty JSON object). -/
def emptyObjStr : String := String.mk ['{', '}']

/-- A parse oracle accepting only the exact span `emptyObjStr` (as a
model of `json.loads` on the empty object). -/
def parseEmptyObj : String → Option PyVal :=
  fun s => if s = emptyObjStr then some (.dict []) else Option.none

/-- A reasoning-service oracle that answers `emptyObjStr` on every
attempt. -/
def apiEmptyObj : Nat → AttemptResult :=
  fun _ => .response emptyObjStr 120 30 800

/-! ## Claim C7 — token-cache validity window -/

/-- C7 counterexample: the claim fails for the empty-string token.  After
`set_token("", 3600)` at time 0, `get_token` at time 0 reports the token
absent even though `0 < 0 + 3600 - 300`, because `is_valid` tests
Python truthiness of the stored token (`if not cls._token`). -/
theorem claim_C7_counterexample :
    TokenCache.get_token (TokenCache.set_token 0 (.str "") 3600) 0 = Option.none ∧
    (0 : Int) < 0 + 3600 - 300 ∧
    (TokenCache.set_token 0 (PyVal.str "") 3600).token = some (.str "") := by
  exact ⟨rfl, by decide, rfl⟩

/-- C7 (amended to truthy tokens): for every truthy token stored at time
`t0` with time-to-live `T`, `get_token` returns that token exactly when
`now < t0 + T - 300` (five minutes before expiry), and reports it absent
at or after that point; with no token ever stored it always reports
absent. -/
theorem claim_C7 (tok : PyVal) (t0 T now : Int) (h : tok.truthy = true) :
    (TokenCache.get_token (TokenCache.set_token t0 tok T) now = some tok ↔
      now < t0 + T - 300) ∧
    TokenCache.get_token TokenCache.empty now = Option.none := by
  refine ⟨?_, rfl⟩
  unfold TokenCache.get_token TokenCache.is_valid TokenCache.set_token
  by_cases hc : now < t0 + T - 300 <;> simp [h, hc]

/-- C7 witness: a truthy token stored at time 0 with ttl 3600 is returned
at time 0, and the empty cache reports absent. -/
theorem claim_C7_witness :
    TokenCache.get_token (TokenCache.set_token 0 (PyVal.str "abc") 3600) 0 =
      some (PyVal.str "abc") ∧
    TokenCache.get_token TokenCache.empty 0 = Option.none := by
  have h := claim_C7 (PyVal.str "abc") 0 3600 0 (by decide)
  exact ⟨h.1.mpr (by decide), h.2⟩

/-! ## Claim C4 — bounded retries in `call_claude` -/

/-- Unfolded form of the three-attempt loop. -/
theorem call_claude_unfold (parse : String → Option PyVal)
    (api : Nat → AttemptResult) :
    call_claude parse api =
      match attemptOnce parse api 0 with
      | .ok r => .ok r
      | .error _ =>
        match attemptOnce parse api 1 with
        | .ok r => .ok r
        | .error _ => attemptOnce parse api 2 := by
  rfl

/-- `attemptOnce` only consults the oracle at its own attempt index. -/
theorem attemptOnce_congr (parse : String → Option PyVal)
    (api api2 : Nat → AttemptResult) (a : Nat) (h : api a = api2 a) :
    attemptOnce parse api a = attemptOnce parse api2 a := by
  unfold attemptOnce
  rw [h]

/-- A successful attempt records its own index as the retry count. -/
theorem attemptOnce_retries (parse : String → Option PyVal)
    (api : Nat → AttemptResult) (a : Nat) (res : PyVal × ClaudeMetrics)
    (h : attemptOnce parse api a = .ok res) : res.2.retries = a := by
  unfold attemptOnce at h
  cases hapi : api a with
  | apiError e => rw [hapi] at h; cases h
  | response raw tin tout lat =>
    rw [hapi] at h
    dsimp only at h
    cases hs : extractSpan raw with
    | none => rw [hs] at h; cases h
    | some span =>
      rw [hs] at h
      dsimp only at h
      cases hp : parse span with
      | none => rw [hp] at h; cases h
      | some p =>
        rw [hp] at h
        dsimp only at h
        cases h
        rfl

/-- C4: the reasoning invocation makes at most `MAX_CLAUDE_RETRIES + 1 = 3`
attempts (the outcome depends on the oracle only at indices 0..2); it
returns the first successful attempt's value with that attempt's metrics,
whose retry count is the attempt ordinal; and when all three attempts
fail, the last attempt's exception propagates. -/
theorem claim_C4 (parse : String → Option PyVal) (api : Nat → AttemptResult) :
    (∀ api2 : Nat → AttemptResult,
      (∀ i, i ≤ MAX_CLAUDE_RETRIES → api i = api2 i) →
      call_claude parse api = call_claude parse api2) ∧
    (∀ (k : Nat) (res : PyVal × ClaudeMetrics), k ≤ MAX_CLAUDE_RETRIES →
      (∀ j, j < k → ∃ e, attemptOnce parse api j = .error e) →
      attemptOnce parse api k = .ok res →
      call_claude parse api = .ok res ∧ res.2.retries = k) ∧
    (∀ e0 e1 e2, attemptOnce parse api 0 = .error e0 →
      attemptOnce parse api 1 = .error e1 →
      attemptOnce parse api 2 = .error e2 →
      call_claude parse api = .error e2) := by
  refine ⟨?_, ?_, ?_⟩
  · intro api2 h
    rw [call_claude_unfold parse api, call_claude_unfold parse api2,
      attemptOnce_congr parse api api2 0 (h 0 (by decide)),
      attemptOnce_congr parse api api2 1 (h 1 (by decide)),
      attemptOnce_congr parse api api2 2 (h 2 (by decide))]
  · intro k res hk hprev hok
    refine ⟨?_, attemptOnce_retries parse api k res hok⟩
    rw [call_claude_unfold parse api]
    have hk2 : k ≤ 2 := hk
    interval_cases k
    · rw [hok]
    · obtain ⟨e0, h0⟩ := hprev 0 (by decide)
      rw [h0, hok]
    · obtain ⟨e0, h0⟩ := hprev 0 (by decide)
      obtain ⟨e1, h1⟩ := hprev 1 (by decide)
      rw [h0, h1, hok]
  · intro e0 e1 e2 h0 h1 h2
    rw [call_claude_unfold parse api, h0, h1, h2]

/-- C4 witness: with an oracle that fails on attempts 0 and 1 and answers
a parsable object on attempt 2, `call_claude` succeeds with retry count
2. -/
theorem claim_C4_witness :
    call_claude parseEmptyObj
        (fun i => if i < 2 then .apiError (.apiError "overloaded")
                  else .response emptyObjStr 120 30 800) =
      .ok (.dict [], ⟨2, 120, 30, 800, some emptyObjStr⟩) := by
  have h := (claim_C4 parseEmptyObj
    (fun i => if i < 2 then .apiError (.apiError "overloaded")
              else .response emptyObjStr 120 30 800)).2.1 2
    (.dict [], ⟨2, 120, 30, 800, some emptyObjStr⟩) (by decide)
    (by
      intro j hj
      interval_cases j
      · exact ⟨.apiError "overloaded", rfl⟩
      · exact ⟨.apiError "overloaded", rfl⟩)
    rfl
  exact h.1

/-! ## Claim C5 — strict span extraction from the raw response -/

/-- `upToLast` fails exactly on lists without the character. -/
theorem upToLast_eq_none (ch : Char) (xs : List Char) (h : ch ∉ xs) :
    upToLast ch xs = Option.none := by
  induction xs with
  | nil => rfl
  | cons c rest ih =>
    simp only [List.mem_cons, not_or] at h
    unfold upToLast
    rw [ih h.2]
    simp [Ne.symm h.1]

/-- `upToLast` keeps everything up to and including the last occurrence. -/
theorem upToLast_append (ch : Char) (mid post : List Char) (h : ch ∉ post) :
    upToLast ch (mid ++ ch :: post) = some (mid ++ [ch]) := by
  induction mid with
  | nil =>
    simp only [List.nil_append]
    unfold upToLast
    rw [upToLast_eq_none ch post h]
    simp
  | cons c rest ih =>
    simp only [List.cons_append]
    unfold upToLast
    rw [ih]

/-- Dropping up to the first opening brace. -/
theorem dropWhile_brace (pre rest : List Char) (h : '{' ∉ pre) :
    (pre ++ '{' :: rest).dropWhile (fun c => c != '{') = '{' :: rest := by
  induction pre with
  | nil => simp [List.dropWhile]
  | cons c p ih =>
    simp only [List.mem_cons, not_or] at h
    simp only [List.cons_append, List.dropWhile]
    have hc : (c != '{') = true := by simp [Ne.symm h.1]
    rw [hc]
    exact ih h.2

/-- C5: the invoker extracts exactly the span running from the first
opening brace to the final closing brace of the raw text (first
conjunct); when the text has no closing brace at or after its first
opening brace — in particular no brace at all — extraction fails (second
conjunct); and each attempt succeeds or fails according to that span:
no span, or a span `json.loads` rejects, makes the attempt fail, while a
parsed span is returned as the decision object (third conjunct). -/
theorem claim_C5 (parse : String → Option PyVal) (api : Nat → AttemptResult) :
    (∀ (raw : String) (pre mid post : List Char),
      raw.toList = pre ++ '{' :: mid ++ '}' :: post → '{' ∉ pre → '}' ∉ post →
      extractSpan raw = some (String.mk ('{' :: (mid ++ ['}'])))) ∧
    (∀ raw : String, '}' ∉ raw.toList.dropWhile (fun c => c != '{') →
      extractSpan raw = Option.none) ∧
    (∀ (att : Nat) (raw : String) (tin tout lat : Int),
      api att = .response raw tin tout lat →
      (extractSpan raw = Option.none →
        attemptOnce parse api att = .error (.valueError "No JSON found")) ∧
      (∀ span, extractSpan raw = some span → parse span = Option.none →
        attemptOnce parse api att = .error (.jsonError "Expecting value")) ∧
      (∀ span p, extractSpan raw = some span → parse span = some p →
        attemptOnce parse api att = .ok (p, ⟨att, tin, tout, lat, some raw⟩))) := by
  refine ⟨?_, ?_, ?_⟩
  · intro raw pre mid post hdecomp hpre hpost
    unfold extractSpan extractSpanL
    rw [hdecomp, List.append_assoc, List.cons_append,
      dropWhile_brace pre (mid ++ '}' :: post) hpre]
    dsimp only
    rw [upToLast_append '}' mid post hpost]
    rfl
  · intro raw h
    unfold extractSpan extractSpanL
    cases hdw : raw.toList.dropWhile (fun c => c != '{') with
    | nil => rfl
    | cons c rest =>
      rw [hdw] at h
      simp only [List.mem_cons, not_or] at h
      dsimp only
      rw [upToLast_eq_none '}' rest h.2]
      rfl
  · intro att raw tin tout lat hapi
    refine ⟨?_, ?_, ?_⟩
    · intro hs
      unfold attemptOnce
      rw [hapi]
      dsimp only
      rw [hs]
    · intro span hs hp
      unfold attemptOnce
      rw [hapi]
      dsimp only
      rw [hs]
      dsimp only
      rw [hp]
    · intro span p hs hp
      unfold attemptOnce
      rw [hapi]
      dsimp only
      rw [hs]
      dsimp only
      rw [hp]

/-- C5 witness: on the raw text `"x\x7bm\x7dp"` the span `"\x7bm\x7d"` is
extracted; an unparsable span fails the attempt; on brace-free text
extraction fails with the `No JSON found` error; and a parsable span
succeeds. -/
theorem claim_C5_witness :
    extractSpan (String.mk ['x', '{', 'm', '}', 'p']) =
      some (String.mk ['{', 'm', '}']) ∧
    extractSpan "no braces here" = Option.none ∧
    attemptOnce parseEmptyObj
      (fun _ => .response (String.mk ['x', '{', 'm', '}', 'p']) 1 2 3) 0 =
      .error (.jsonError "Expecting value") ∧
    attemptOnce parseEmptyObj apiEmptyObj 0 =
      .ok (.dict [], ⟨0, 120, 30, 800, some emptyObjStr⟩) := by
  have h := claim_C5 parseEmptyObj
    (fun _ => .response (String.mk ['x', '{', 'm', '}', 'p']) 1 2 3)
  have h2 := claim_C5 parseEmptyObj apiEmptyObj
  have hspan : extractSpan (String.mk ['x', '{', 'm', '}', 'p']) =
      some (String.mk ['{', 'm', '}']) :=
    h.1 (String.mk ['x', '{', 'm', '}', 'p']) ['x'] ['m'] ['p'] (by decide)
      (by decide) (by decide)
  refine ⟨hspan, ?_, ?_, ?_⟩
  · exact h.2.1 "no braces here" (by decide)
  · exact (h.2.2 0 (String.mk ['x', '{', 'm', '}', 'p']) 1 2 3 rfl).2.1
      (String.mk ['{', 'm', '}']) hspan rfl
  · refine (h2.2.2 0 emptyObjStr 120 30 800 rfl).2.2 emptyObjStr (.dict []) ?_ ?_
    · exact h2.1 emptyObjStr [] [] [] (by decide) (by decide) (by decide)
    · rfl

/-! ## Claim C9 — employer (pagaduría) classification order and default -/

/-- C9: the payer category is the first entry of
`[COLPENSIONES, FOPEP, FIDUPREVISORA, CASUR, CREMIL, POSITIVA]` that is a
substring of the upper-cased employer string, so earlier entries win over
later ones (second conjunct); and when both `company_name` and
`employer_name` are missing the employer string defaults to
`"DESCONOCIDA"`, which classifies to `"OTRAS"` (first conjunct). -/
theorem claim_C9 :
    (∀ xs : List (String × PyVal),
      dictLookup xs "company_name" = Option.none →
      dictLookup xs "employer_name" = Option.none →
      pickPagaduria (.dict xs) = .ok (.str "DESCONOCIDA") ∧
      pagType (pyUpperStr "DESCONOCIDA") = "OTRAS") ∧
    (∀ (s : String) (i : Nat) (h : i < PAG_TYPES.length),
      strContains s (PAG_TYPES.get ⟨i, h⟩) = true →
      (∀ (j : Nat) (hj : j < i),
        strContains s (PAG_TYPES.get ⟨j, Nat.lt_trans hj h⟩) = false) →
      pagType s = PAG_TYPES.get ⟨i, h⟩) := by
  constructor
  · intro xs h1 h2
    constructor
    · simp [pickPagaduria, PyVal.get, h1, h2, pyOr, PyVal.truthy, bind,
        Except.bind, pure, Except.pure]
    · rfl
  · intro s i h hmatch hprev
    have hlen : i < 6 := h
    interval_cases i
    · simp only [PAG_TYPES, List.get] at hmatch ⊢
      unfold pagType PAG_TYPES
      rw [List.find?_cons_of_pos _ hmatch]
      rfl
    · have h0 := hprev 0 (by omega)
      simp only [PAG_TYPES, List.get] at hmatch h0 ⊢
      unfold pagType PAG_TYPES
      rw [List.find?_cons_of_neg _ (by simp [h0]),
        List.find?_cons_of_pos _ hmatch]
      rfl
    · have h0 := hprev 0 (by omega)
      have h1 := hprev 1 (by omega)
      simp only [PAG_TYPES, List.get] at hmatch h0 h1 ⊢
      unfold pagType PAG_TYPES
      rw [List.find?_cons_of_neg _ (by simp [h0]),
        List.find?_cons_of_neg _ (by simp [h1]),
        List.find?_cons_of_pos _ hmatch]
      rfl
    · have h0 := hprev 0 (by omega)
      have h1 := hprev 1 (by omega)
      have h2 := hprev 2 (by omega)
      simp only [PAG_TYPES, List.get] at hmatch h0 h1 h2 ⊢
      unfold pagType PAG_TYPES
      rw [List.find?_cons_of_neg _ (by simp [h0]),
        List.find?_cons_of_neg _ (by simp [h1]),
        List.find?_cons_of_neg _ (by simp [h2]),
        List.find?_cons_of_pos _ hmatch]
      rfl
    · have h0 := hprev 0 (by omega)
      have h1 := hprev 1 (by omega)
      have h2 := hprev 2 (by omega)
      have h3 := hprev 3 (by omega)
      simp only [PAG_TYPES, List.get] at hmatch h0 h1 h2 h3 ⊢
      unfold pagType PAG_TYPES
      rw [List.find?_cons_of_neg _ (by simp [h0]),
        List.find?_cons_of_neg _ (by simp [h1]),
        List.find?_cons_of_neg _ (by simp [h2]),
        List.find?_cons_of_neg _ (by simp [h3]),
        List.find?_cons_of_pos _ hmatch]
      rfl
    · have h0 := hprev 0 (by omega)
      have h1 := hprev 1 (by omega)
      have h2 := hprev 2 (by omega)
      have h3 := hprev 3 (by omega)
      have h4 := hprev 4 (by omega)
      simp only [PAG_TYPES, List.get] at hmatch h0 h1 h2 h3 h4 ⊢
      unfold pagType PAG_TYPES
      rw [List.find?_cons_of_neg _ (by simp [h0]),
        List.find?_cons_of_neg _ (by simp [h1]),
        List.find?_cons_of_neg _ (by simp [h2]),
        List.find?_cons_of_neg _ (by simp [h3]),
        List.find?_cons_of_neg _ (by simp [h4]),
        List.find?_cons_of_pos _ hmatch]
      rfl

/-- C9 witness: with no employer fields the pagaduría is `DESCONOCIDA` /
`OTRAS`, and `"XCASURY"`, which contains only the fourth category
`CASUR`, classifies as `CASUR`. -/
theorem claim_C9_witness :
    (pickPagaduria (.dict []) = .ok (.str "DESCONOCIDA") ∧
      pagType (pyUpperStr "DESCONOCIDA") = "OTRAS") ∧
    pagType "XCASURY" = "CASUR" := by
  constructor
  · exact claim_C9.1 [] rfl rfl
  · have h := claim_C9.2 "XCASURY" 3 (by decide) (by decide)
      (by
        intro j hj
        interval_cases j <;>
          · simp only [PAG_TYPES, List.get]
            decide)
    simpa using h

/-! ## Claim C6 — deduction classification -/

/-- `consolidate_data` only succeeds with the literal output document. -/
theorem consolidate_shape (txn : String) (ocr buro truora tasks doc : PyVal)
    (h : consolidate_data txn ocr buro truora tasks = .ok doc) :
    ∃ personal pagaduria pag_type gross net dedsOut libs embs scoring fullName
      cc alerts loans sarlaft nproc processes tasksOut,
      doc = consolidatedDoc txn personal pagaduria pag_type gross net dedsOut
        libs embs scoring fullName cc alerts loans sarlaft nproc processes
        tasksOut := by
  unfold consolidate_data at h
  simp only [bind, Except.bind, pure, Except.pure] at h
  repeat' split at h
  all_goals first
    | (injection h with h2
       exact ⟨_, _, _, _, _, _, _, _, _, _, _, _, _, _, _, _, _, h2.symm⟩)
    | injection h

/-- `Char.ofNat` inverts `toNat` on valid scalar values. -/
theorem char_toNat_ofNat (n : Nat) (h : n.isValidChar) :
    (Char.ofNat n).toNat = n := by
  unfold Char.ofNat
  rw [dif_pos h]
  rfl

/-- Upper-casing after lower-casing is plain upper-casing. -/
theorem char_toUpper_toLower (c : Char) : c.toLower.toUpper = c.toUpper := by
  unfold Char.toLower Char.toUpper
  by_cases h : c.toNat ≥ 65 ∧ c.toNat ≤ 90
  · rw [if_pos h]
    have hv : (c.toNat + 32).isValidChar := Or.inl (by omega)
    have ht : (Char.ofNat (c.toNat + 32)).toNat = c.toNat + 32 :=
      char_toNat_ofNat _ hv
    rw [ht]
    dsimp only
    rw [if_pos (by omega : c.toNat + 32 ≥ 97 ∧ c.toNat + 32 ≤ 122),
      if_neg (by omega : ¬(c.toNat ≥ 97 ∧ c.toNat ≤ 122))]
    have harith : c.toNat + 32 - 32 = c.toNat := by omega
    rw [harith, Char.ofNat_toNat]
  · rw [if_neg h]

/-- Upper-casing is idempotent. -/
theorem char_toUpper_idem (c : Char) : c.toUpper.toUpper = c.toUpper := by
  unfold Char.toUpper
  by_cases h : c.toNat ≥ 97 ∧ c.toNat ≤ 122
  · rw [if_pos h]
    have hv : (c.toNat - 32).isValidChar := Or.inl (by omega)
    have ht : (Char.ofNat (c.toNat - 32)).toNat = c.toNat - 32 :=
      char_toNat_ofNat _ hv
    rw [ht]
    dsimp only
    rw [if_neg (by omega : ¬(c.toNat - 32 ≥ 97 ∧ c.toNat - 32 ≤ 122))]
  · rw [if_neg h, if_neg h]

/-- String-level: upper-casing a lower-cased string equals upper-casing
the original. -/
theorem pyUpperStr_lower (s : String) :
    pyUpperStr (pyLowerStr s) = pyUpperStr s := by
  unfold pyUpperStr pyLowerStr
  congr 1
  show (s.toList.map Char.toLower).map Char.toUpper = s.toList.map Char.toUpper
  induction s.toList with
  | nil => rfl
  | cons c cs ih => simp [char_toUpper_toLower, ih]

/-- String-level: upper-casing is idempotent. -/
theorem pyUpperStr_idem (s : String) :
    pyUpperStr (pyUpperStr s) = pyUpperStr s := by
  unfold pyUpperStr
  congr 1
  show (s.toList.map Char.toUpper).map Char.toUpper = s.toList.map Char.toUpper
  induction s.toList with
  | nil => rfl
  | cons c cs ih => simp [char_toUpper_idem, ih]

/-- A successful classification pass filters the two lists independently
with the two keyword selectors. -/
theorem classifyDeductions_eq (ds : List PyVal) (libs embs : List PyVal)
    (h : classifyDeductions ds = .ok (libs, embs)) :
    libs = ds.filterMap loanSelect ∧ embs = ds.filterMap embargoSelect := by
  induction ds generalizing libs embs with
  | nil =>
    unfold classifyDeductions at h
    injection h with h2
    injection h2 with ha hb
    subst ha
    subst hb
    exact ⟨rfl, rfl⟩
  | cons d rest ih =>
    unfold classifyDeductions at h
    simp only [bind, Except.bind, pure, Except.pure] at h
    cases h1 : dedDescUpper d with
    | error e => rw [h1] at h; injection h
    | ok u =>
      rw [h1] at h
      dsimp only at h
      cases h2 : dedEntry d with
      | error e => rw [h2] at h; injection h
      | ok en =>
        rw [h2] at h
        dsimp only at h
        cases h3 : classifyDeductions rest with
        | error e => rw [h3] at h; injection h
        | ok p =>
          obtain ⟨ls, es⟩ := p
          rw [h3] at h
          dsimp only at h
          injection h with h4
          injection h4 with ha hb
          obtain ⟨hl, he⟩ := ih ls es h3
          subst ha
          subst hb
          constructor
          · rw [List.filterMap_cons]
            unfold loanSelect
            rw [h1, h2]
            dsimp only
            by_cases hy : hitsLoan u = true
            · rw [if_pos hy, if_pos hy]
              dsimp only
              rw [hl]
              rfl
            · rw [if_neg hy, if_neg hy]
              dsimp only
              rw [hl]
              rfl
          · rw [List.filterMap_cons]
            unfold embargoSelect
            rw [h1, h2]
            dsimp only
            by_cases hy : hitsEmbargo u = true
            · rw [if_pos hy, if_pos hy]
              dsimp only
              rw [he]
              rfl
            · rw [if_neg hy, if_neg hy]
              dsimp only
              rw [he]
              rfl

/-- The garnishment-count field of the output literal. -/
theorem consolidatedDoc_embargos (txn : String) (personal pagaduria : PyVal)
    (pag_type : String) (gross net : PyVal)
    (dedsOut libs embs : List PyVal) (scoring fullName cc alerts : PyVal)
    (loans : List PyVal) (sarlaft nproc : PyVal)
    (processes tasksOut : List PyVal) :
    docField2 (consolidatedDoc txn personal pagaduria pag_type gross net
        dedsOut libs embs scoring fullName cc alerts loans sarlaft nproc
        processes tasksOut) "ocr" "embargos" = some (.list embs) ∧
    docField2 (consolidatedDoc txn personal pagaduria pag_type gross net
        dedsOut libs embs scoring fullName cc alerts loans sarlaft nproc
        processes tasksOut) "ocr" "cantidadEmbargos" =
      some (.int embs.length) := by
  exact ⟨rfl, rfl⟩

/-- C6 counterexample: the deduction description
`"Embargo Banco Popular"` contains both the loan keyword `BANCO` and the
garnishment keyword `EMBARGO`, and the consolidated output classifies the
same item into BOTH lists — refuting "at most one of the two classes". -/
theorem claim_C6_counterexample :
    hitsLoan (pyUpperStr "Embargo Banco Popular") = true ∧
    hitsEmbargo (pyUpperStr "Embargo Banco Popular") = true ∧
    (consolidate_data "t" bothOcr (.dict []) (.dict []) (.list [])).toOption.bind
      (fun d => docField2 d "ocr" "libranzasIdentificadas") =
        some (.list [bothEntry]) ∧
    (consolidate_data "t" bothOcr (.dict []) (.dict []) (.list [])).toOption.bind
      (fun d => docField2 d "ocr" "embargos") = some (.list [bothEntry]) := by
  exact ⟨rfl, rfl, rfl, rfl⟩

/-- C6 (amended): each deduction item is tested independently against the
two keyword classes — so it lands in a class exactly when its upper-cased
description contains a keyword of that class, and it may land in both
(first conjunct); the keyword matching is case-insensitive in that
lower-casing or upper-casing the description does not change either test
(second conjunct); and the garnishment count in the consolidated output
equals the length of the garnishment-classified list (third conjunct). -/
theorem claim_C6 :
    (∀ (ds libs embs : List PyVal), classifyDeductions ds = .ok (libs, embs) →
      libs = ds.filterMap loanSelect ∧ embs = ds.filterMap embargoSelect) ∧
    (∀ s : String,
      (hitsLoan (pyUpperStr (pyLowerStr s)) = hitsLoan (pyUpperStr s) ∧
       hitsEmbargo (pyUpperStr (pyLowerStr s)) = hitsEmbargo (pyUpperStr s)) ∧
      (hitsLoan (pyUpperStr (pyUpperStr s)) = hitsLoan (pyUpperStr s) ∧
       hitsEmbargo (pyUpperStr (pyUpperStr s)) = hitsEmbargo (pyUpperStr s))) ∧
    (∀ (txn : String) (ocr buro truora tasks doc : PyVal),
      consolidate_data txn ocr buro truora tasks = .ok doc →
      ∃ embs : List PyVal, docField2 doc "ocr" "embargos" = some (.list embs) ∧
        docField2 doc "ocr" "cantidadEmbargos" = some (.int embs.length)) := by
  refine ⟨classifyDeductions_eq, ?_, ?_⟩
  · intro s
    rw [pyUpperStr_lower, pyUpperStr_idem]
    exact ⟨⟨rfl, rfl⟩, ⟨rfl, rfl⟩⟩
  · intro txn ocr buro truora tasks doc h
    obtain ⟨personal, pagaduria, pag_type, gross, net, dedsOut, libs, embs,
      scoring, fullName, cc, alerts, loans, sarlaft, nproc, processes,
      tasksOut, rfl⟩ := consolidate_shape txn ocr buro truora tasks doc h
    exact ⟨embs, consolidatedDoc_embargos txn personal pagaduria pag_type
      gross net dedsOut libs embs scoring fullName cc alerts loans sarlaft
      nproc processes tasksOut⟩

/-- C6 witness: the classification characterization evaluated on the
double-keyword deduction, and case-insensitivity on a concrete keyword. -/
theorem claim_C6_witness :
    List.filterMap loanSelect [bothDed] = [bothEntry] ∧
    List.filterMap embargoSelect [bothDed] = [bothEntry] ∧
    hitsEmbargo (pyUpperStr (pyLowerStr "Embargo")) =
      hitsEmbargo (pyUpperStr "Embargo") := by
  have h := claim_C6.1 [bothDed] [bothEntry] [bothEntry] rfl
  exact ⟨h.1.symm, h.2.symm, (claim_C6.2.1 "Embargo").1.2⟩

/-! ## Claim C3 — consolidation totality on well-formed inputs -/

theorem isDictB_exists (v : PyVal) (h : isDictB v = true) : ∃ xs, v = .dict xs := by
  cases v <;> simp [isDictB] at h ⊢

theorem get_dict_eq (xs : List (String × PyVal)) (k : String) (d : PyVal) :
    PyVal.get (.dict xs) k d = .ok (fieldD xs k d) := rfl

theorem strOrFalsy_pyOr (v : PyVal) (h : strOrFalsy v = true) :
    ∃ s, pyOr v (.str "") = .str s := by
  by_cases hv : v.truthy
  · have hstr : isStrB v = true := by
      unfold strOrFalsy at h
      rw [hv] at h
      simpa using h
    obtain ⟨s, rfl⟩ : ∃ s, v = .str s := by
      cases v <;> simp [isStrB] at hstr ⊢
    exact ⟨s, by simp [pyOr, hv]⟩
  · exact ⟨"", by simp [pyOr, hv]⟩

theorem intOrFalsy_pyInt (v : PyVal) (h : intOrFalsy v = true) :
    ∃ n, pyInt (pyOr v (.int 0)) = .ok n := by
  by_cases hv : v.truthy
  · obtain ⟨n, rfl⟩ : ∃ n, v = .int n := by
      unfold intOrFalsy at h
      rw [hv] at h
      cases v <;> simp at h ⊢
    exact ⟨n, by simp [pyOr, hv, pyInt]⟩
  · exact ⟨0, by simp [pyOr, hv, pyInt]⟩

theorem strOrFalsy_pySlice (v : PyVal) (n : Nat) (h : strOrFalsy v = true) :
    ∃ s, pySlice (pyOr v (.str "")) n = .ok (.str s) := by
  obtain ⟨s, hs⟩ := strOrFalsy_pyOr v h
  exact ⟨String.mk (s.toList.take n), by rw [hs]; rfl⟩

theorem dedDescUpper_ok (d : PyVal) (h : wfDed d = true) :
    (∃ u, dedDescUpper d = .ok u) ∧ (∃ e, dedEntry d = .ok e) := by
  obtain ⟨xs, rfl⟩ : ∃ xs, d = .dict xs := by
    cases d <;> simp [wfDed] at h ⊢
  have hdesc : strOrFalsy (fieldD xs "description" .none) = true := by
    simpa [wfDed] using h
  obtain ⟨u, hu⟩ := strOrFalsy_pyOr _ hdesc
  constructor
  · refine ⟨pyUpperStr u, ?_⟩
    unfold dedDescUpper
    rw [show PyVal.get (.dict xs) "description" .none =
      .ok (fieldD xs "description" .none) from rfl]
    simp only [bind, Except.bind]
    rw [hu]
    rfl
  · exact ⟨.dict [("descripcion", fieldD xs "description" .none),
      ("monto", fieldD xs "amount" .none)], rfl⟩

theorem classifyDeductions_ok (ds : List PyVal)
    (h : ∀ d ∈ ds, wfDed d = true) :
    ∃ p, classifyDeductions ds = .ok p := by
  induction ds with
  | nil => exact ⟨([], []), rfl⟩
  | cons d rest ih =>
    obtain ⟨⟨u, hu⟩, ⟨e, he⟩⟩ := dedDescUpper_ok d (h d (by simp))
    obtain ⟨⟨ls, es⟩, hp⟩ := ih (fun x hx => h x (by simp [hx]))
    refine ⟨((if hitsLoan u then e :: ls else ls),
      (if hitsEmbargo u then e :: es else es)), ?_⟩
    unfold classifyDeductions
    simp only [bind, Except.bind, pure, Except.pure]
    rw [hu]
    dsimp only
    rw [he]
    dsimp only
    rw [hp]

theorem mapExcept_ok (f : PyVal → Except PyErr PyVal) (l : List PyVal)
    (h : ∀ x ∈ l, ∃ y, f x = .ok y) :
    ∃ ys, mapExcept f l = .ok ys := by
  induction l with
  | nil => exact ⟨[], rfl⟩
  | cons x xs ih =>
    obtain ⟨y, hy⟩ := h x (by simp)
    obtain ⟨ys, hys⟩ := ih (fun z hz => h z (by simp [hz]))
    refine ⟨y :: ys, ?_⟩
    unfold mapExcept
    simp only [bind, Except.bind, pure, Except.pure]
    rw [hy]
    dsimp only
    rw [hys]

theorem projectLoan_ok (v : PyVal) (h : wfLoan v = true) :
    ∃ y, projectLoan v = .ok y := by
  obtain ⟨xs, rfl⟩ : ∃ xs, v = .dict xs := by
    cases v <;> simp [wfLoan] at h ⊢
  unfold wfLoan at h
  dsimp only at h
  obtain ⟨acc, hacc⟩ : ∃ acc, fieldD xs "accounts" (.dict []) = .dict acc := by
    cases hf : fieldD xs "accounts" (.dict []) <;> rw [hf] at h <;>
      simp at h ⊢
  rw [hacc] at h
  simp only [Bool.and_eq_true] at h
  obtain ⟨⟨hdebt, hinst⟩, hpb⟩ := h
  obtain ⟨nd, hnd⟩ := intOrFalsy_pyInt _ hdebt
  obtain ⟨ni, hni⟩ := intOrFalsy_pyInt _ hinst
  obtain ⟨ps, hps⟩ := strOrFalsy_pySlice _ 12 hpb
  unfold projectLoan
  simp only [bind, Except.bind, pure, Except.pure, get_dict_eq, hacc, hnd,
    hni, hps]
  exact ⟨_, rfl⟩

theorem projectProcess_ok (v : PyVal) (h : isDictB v = true) :
    ∃ y, projectProcess v = .ok y := by
  obtain ⟨xs, rfl⟩ := isDictB_exists v h
  exact ⟨_, rfl⟩

theorem projectTask_ok (v : PyVal) (h : isDictB v = true) :
    ∃ y, projectTask v = .ok y := by
  obtain ⟨xs, rfl⟩ := isDictB_exists v h
  exact ⟨_, rfl⟩

theorem dedOut_ok (d : PyVal) (h : wfDed d = true) :
    ∃ y, dedOut d = .ok y := by
  obtain ⟨xs, rfl⟩ : ∃ xs, d = .dict xs := by
    cases d <;> simp [wfDed] at h ⊢
  exact ⟨_, rfl⟩

theorem pickPagaduria_ok (v : PyVal) (h : wfEmployment v = true) :
    ∃ (p : PyVal) (s : String), pickPagaduria v = .ok p ∧
      PyVal.upper p = .ok s := by
  obtain ⟨xs, rfl⟩ : ∃ xs, v = .dict xs := by
    cases v <;> simp [wfEmployment] at h ⊢
  unfold wfEmployment at h
  dsimp only at h
  unfold pickPagaduria
  simp only [bind, Except.bind, get_dict_eq]
  by_cases hc : (fieldD xs "company_name" .none).truthy = true
  · rw [if_pos hc] at h
    rw [if_pos hc]
    obtain ⟨s, hs⟩ : ∃ s, fieldD xs "company_name" .none = .str s := by
      cases hf : fieldD xs "company_name" .none <;> rw [hf] at h <;>
        simp [isStrB] at h ⊢
    exact ⟨_, pyUpperStr s, rfl, by rw [hs]; rfl⟩
  · rw [if_neg hc] at h
    rw [if_neg hc]
    by_cases he : (fieldD xs "employer_name" .none).truthy = true
    · rw [if_pos he] at h
      obtain ⟨s, hs⟩ : ∃ s, fieldD xs "employer_name" .none = .str s := by
        cases hf : fieldD xs "employer_name" .none <;> rw [hf] at h <;>
          simp [isStrB] at h ⊢
      refine ⟨.str s, pyUpperStr s, ?_, rfl⟩
      rw [show pyOr (fieldD xs "employer_name" .none) (.str "DESCONOCIDA") =
        .str s from by rw [hs] at he ⊢; simp [pyOr, he]]
      rfl
    · refine ⟨.str "DESCONOCIDA", pyUpperStr "DESCONOCIDA", ?_, rfl⟩
      rw [show pyOr (fieldD xs "employer_name" .none) (.str "DESCONOCIDA") =
        .str "DESCONOCIDA" from by simp [pyOr, he]]
      rfl

theorem wfOcr_stage (v : PyVal) (h : wfOcr v = true) :
    ∃ d, ocrPrimary v = .ok d ∧ wfOcrDoc d = true := by
  unfold wfOcr at h
  unfold ocrPrimary
  by_cases hv : v.truthy = true
  · rw [if_pos hv] at h ⊢
    cases v with
    | list xs =>
      cases xs with
      | nil => simp [PyVal.truthy, List.isEmpty] at hv
      | cons d0 rest =>
        refine ⟨d0, rfl, ?_⟩
        simpa using h
    | none => simp at h
    | bool b => simp at h
    | int n => simp at h
    | str t => simp at h
    | dict xs => simp at h
  · rw [if_neg hv] at h ⊢
    exact ⟨.dict [], rfl, by decide⟩

theorem hasDeclaredFields_doc (txn : String) (personal pagaduria : PyVal)
    (pag_type : String) (gross net : PyVal)
    (dedsOut libs embs : List PyVal) (scoring fullName cc alerts : PyVal)
    (loans : List PyVal) (sarlaft nproc : PyVal)
    (processes tasksOut : List PyVal) :
    hasDeclaredFields (consolidatedDoc txn personal pagaduria pag_type gross
      net dedsOut libs embs scoring fullName cc alerts loans sarlaft nproc
      processes tasksOut) = true := rfl

theorem except_bind_ok {α β : Type} (a : α) (f : α → Except PyErr β) :
    (Except.ok a : Except PyErr α) >>= f = f a := rfl

/-- C3 (amended to well-formed inputs): on every input whose consulted
nested fields, where present and truthy, carry the source-schema type
(`wfInputs`), `consolidate_data` never raises — missing or falsy fields
resolve to the declared defaults — and the returned document contains
every declared output field.  (On wrong-typed nested fields the source
does raise; see the counterexample.) -/
theorem claim_C3 (txn : String) (ocr buro truora tasks : PyVal)
    (h : wfInputs ocr buro truora tasks = true) :
    ∃ doc, consolidate_data txn ocr buro truora tasks = .ok doc ∧
      hasDeclaredFields doc = true := by
  unfold wfInputs at h
  simp only [Bool.and_eq_true] at h
  obtain ⟨⟨⟨hocr, hburo⟩, htruora⟩, htasks⟩ := h
  obtain ⟨ocrDoc, hs1, hdoc⟩ := wfOcr_stage ocr hocr
  obtain ⟨xs0, rfl⟩ : ∃ xs0, ocrDoc = .dict xs0 := by
    cases ocrDoc <;> simp [wfOcrDoc] at hdoc ⊢
  have hstd : wfStd (fieldD xs0 "standardizedData" (.dict [])) = true := by
    simpa [wfOcrDoc] using hdoc
  obtain ⟨xs1, hxs1⟩ :
      ∃ xs1, fieldD xs0 "standardizedData" (.dict []) = .dict xs1 := by
    cases hf : fieldD xs0 "standardizedData" (.dict []) <;> rw [hf] at hstd <;>
      simp [wfStd] at hstd ⊢
  rw [hxs1] at hstd
  unfold wfStd at hstd
  dsimp only at hstd
  simp only [Bool.and_eq_true] at hstd
  obtain ⟨hsal, hemp⟩ := hstd
  obtain ⟨xs2, hxs2⟩ :
      ∃ xs2, fieldD xs1 "salary_info" (.dict []) = .dict xs2 := by
    cases hf : fieldD xs1 "salary_info" (.dict []) <;> rw [hf] at hsal <;>
      simp [wfSalary] at hsal ⊢
  rw [hxs2] at hsal
  unfold wfSalary at hsal
  dsimp only at hsal
  obtain ⟨ds, hds⟩ :
      ∃ ds, fieldD xs2 "deduction_details" (.list []) = .list ds := by
    cases hf : fieldD xs2 "deduction_details" (.list []) <;> rw [hf] at hsal <;>
      simp at hsal ⊢
  rw [hds] at hsal
  have hdsAll : ∀ d ∈ ds, wfDed d = true := by
    simpa [List.all_eq_true] using hsal
  obtain ⟨pag, pagU, hpag, hpagU⟩ := pickPagaduria_ok _ hemp
  obtain ⟨⟨libs, embs⟩, hcl⟩ := classifyDeductions_ok ds hdsAll
  obtain ⟨dedsO, hdeds⟩ :=
    mapExcept_ok dedOut ds (fun d hd => dedOut_ok d (hdsAll d hd))
  obtain ⟨bxs, rfl⟩ : ∃ bxs, buro = .dict bxs := by
    cases buro <;> simp [wfBuro] at hburo ⊢
  unfold wfBuro at hburo
  dsimp only at hburo
  simp only [Bool.and_eq_true] at hburo
  obtain ⟨⟨hloans, hscore⟩, hbasic⟩ := hburo
  obtain ⟨ls, hls⟩ :
      ∃ ls, fieldD bxs "outstandingLoans" (.list []) = .list ls := by
    cases hf : fieldD bxs "outstandingLoans" (.list []) <;> rw [hf] at hloans <;>
      simp at hloans ⊢
  rw [hls] at hloans
  have hlsAll : ∀ l ∈ ls, wfLoan l = true := by
    simpa [List.all_eq_true] using hloans
  obtain ⟨loans, hml⟩ :=
    mapExcept_ok projectLoan ls (fun l hl => projectLoan_ok l (hlsAll l hl))
  obtain ⟨sxs, hsxs⟩ := isDictB_exists _ hscore
  obtain ⟨basxs, hbasxs⟩ := isDictB_exists _ hbasic
  obtain ⟨txs, rfl⟩ : ∃ txs, truora = .dict txs := by
    cases truora <;> simp [wfTruora] at htruora ⊢
  unfold wfTruora at htruora
  dsimp only at htruora
  obtain ⟨exs, hexs⟩ :
      ∃ exs, fieldD txs "enrichment" (.dict []) = .dict exs := by
    cases hf : fieldD txs "enrichment" (.dict []) <;> rw [hf] at htruora <;>
      simp at htruora ⊢
  rw [hexs] at htruora
  dsimp only at htruora
  have hproc : ∃ ps, pyOr (fieldD exs "processes" .none) (.list []) = .list ps ∧
      ∀ p ∈ ps, isDictB p = true := by
    by_cases hp : (fieldD exs "processes" .none).truthy = true
    · rw [if_pos hp] at htruora
      obtain ⟨ps, hps⟩ : ∃ ps, fieldD exs "processes" .none = .list ps := by
        cases hf : fieldD exs "processes" .none <;> rw [hf] at htruora <;>
          simp at htruora ⊢
      rw [hps] at htruora
      refine ⟨ps, ?_, ?_⟩
      · rw [hps] at hp ⊢
        simp [pyOr, hp]
      · intro p hpp
        have := (List.all_eq_true.mp (by simpa using htruora)) p hpp
        simpa using this
    · refine ⟨[], ?_, by simp⟩
      simp [pyOr, hp]
  obtain ⟨ps, hpys, hpsAll⟩ := hproc
  obtain ⟨procs, hmp⟩ :=
    mapExcept_ok projectProcess ps (fun p hp => projectProcess_ok p (hpsAll p hp))
  obtain ⟨ts, rfl⟩ : ∃ ts, tasks = .list ts := by
    cases tasks <;> simp [wfTasks] at htasks ⊢
  have htsAll : ∀ t ∈ ts, isDictB t = true := by
    simpa [wfTasks, List.all_eq_true] using htasks
  obtain ⟨tasksO, hmt⟩ :=
    mapExcept_ok projectTask ts (fun t ht => projectTask_ok t (htsAll t ht))
  refine ⟨consolidatedDoc txn (fieldD xs1 "personal_info" (.dict [])) pag
    (pagType pagU) (fieldD xs2 "gross_salary" .none)
    (fieldD xs2 "net_salary" .none) dedsO libs embs
    (fieldD sxs "scoring" .none) (fieldD basxs "fullName" .none)
    (fieldD basxs "documentIdentificationNumber" .none)
    (fieldD bxs "alert" .none) loans (fieldD exs "sarlaftCompliance" .none)
    (fieldD exs "numberOfProcesses" .none) procs tasksO, ?_,
    hasDeclaredFields_doc _ _ _ _ _ _ _ _ _ _ _ _ _ _ _ _ _ _⟩
  unfold consolidate_data
  simp only [get_dict_eq, hs1, hxs1, hxs2, hds, hpag, hpagU, hcl, hdeds,
    hls, hml, hsxs, hbasxs, hexs, hpys, hmp, hmt, pyIterate, except_bind_ok]
  rfl


/-- C3 counterexample: the claim's "never raises for every input" fails —
an OCR document whose `company_name` is the number 5 makes
`pagaduria.upper()` raise `AttributeError` in CPython, and the embedded
`consolidate_data` accordingly returns that error. -/
theorem claim_C3_counterexample :
    consolidate_data "t" badOcr (.dict []) (.dict []) (.list []) =
      .error (.attrError "object has no attribute upper") := rfl

/-- C3 witness: the all-defaulted well-formed input (empty OCR list,
empty dicts, no tasks) consolidates successfully with every declared
field present. -/
theorem claim_C3_witness :
    wfInputs (.list []) (.dict []) (.dict []) (.list []) = true ∧
    ∃ doc, consolidate_data "t" (.list []) (.dict []) (.dict []) (.list []) =
      .ok doc ∧ hasDeclaredFields doc = true :=
  ⟨by decide, claim_C3 "t" (.list []) (.dict []) (.dict []) (.list [])
    (by decide)⟩


/-! ## Claims C1, C2, C8, C10 — the orchestrator contract -/

theorem handleException_good (txn : String) (db : DbEnv) (totalMs : Int)
    (called : Bool) (prior : Option AuditRow) (e : PyErr) :
    (∀ resp, (handleException txn db totalMs called prior e).response =
        .ok resp →
      resp.transaction_id = txn ∧ resp.latency_ms = some totalMs ∧
      (resp.status = "SUCCESS" ∨
        (resp.status = "ERROR" ∧ resp.error.isSome = true))) ∧
    (∀ e2, (handleException txn db totalMs called prior e).response =
        .error e2 →
      e2.isHTTP = true ∨ (db.avail = true ∧ db.errorCommitErr = some e2)) := by
  unfold handleException
  by_cases hh : e.isHTTP = true
  · rw [if_pos hh]
    refine ⟨fun resp h => Except.noConfusion h, ?_⟩
    intro e2 h
    injection h with h2
    rw [← h2]
    exact Or.inl hh
  · rw [if_neg hh]
    by_cases ha : db.avail = true
    · rw [if_pos ha]
      cases hce : db.errorCommitErr with
      | some e3 =>
        refine ⟨fun resp h => Except.noConfusion h, ?_⟩
        intro e2 h
        injection h with h2
        exact Or.inr ⟨ha, congrArg some h2⟩
      | none =>
        refine ⟨?_, fun e2 h => Except.noConfusion h⟩
        intro resp h
        injection h with h2
        rw [← h2]
        exact ⟨rfl, rfl, Or.inr ⟨rfl, rfl⟩⟩
    · rw [if_neg ha]
      refine ⟨?_, fun e2 h => Except.noConfusion h⟩
      intro resp h
      injection h with h2
      rw [← h2]
      exact ⟨rfl, rfl, Or.inr ⟨rfl, rfl⟩⟩


/-- C2 (amended): every response object `validate_credit` returns carries
the transaction id, the latency, and either the `SUCCESS` status or the
`ERROR` status with an error description; and every exception that
escapes the endpoint instead of producing such an object is either a
`fastapi.HTTPException` (re-raised at lines 678-679) or the raising
`db.add`/`db.commit` inside the generic `except` handler (lines 691-692,
which nothing guards).  In particular, when the store is unavailable, or
available with a succeeding error-path commit, every non-HTTPException
failure yields the structured error result. -/
theorem claim_C2 (txn : String) (db : DbEnv) (keySet : Bool)
    (st : TokenCacheState) (now : Int) (env : KalaEnv) (kalaMs : Int)
    (parse : String → Option PyVal) (api : Nat → AttemptResult)
    (totalMs : Int) :
    (∀ resp, (validate_credit txn db keySet st now env kalaMs parse api
        totalMs).response = .ok resp →
      resp.transaction_id = txn ∧ resp.latency_ms = some totalMs ∧
      (resp.status = "SUCCESS" ∨
        (resp.status = "ERROR" ∧ resp.error.isSome = true))) ∧
    (∀ e, (validate_credit txn db keySet st now env kalaMs parse api
        totalMs).response = .error e →
      e.isHTTP = true ∨ (db.avail = true ∧ db.errorCommitErr = some e)) := by
  unfold validate_credit
  cases hg : get_transaction_data txn st now env kalaMs with
  | error e => exact handleException_good txn db totalMs false Option.none e
  | ok p =>
    obtain ⟨data, st2⟩ := p
    dsimp only
    cases hc : consolidate_data txn data.ocr data.buro data.truora
        (.list data.tasks) with
    | error e => exact handleException_good txn db totalMs false Option.none e
    | ok cdoc =>
      dsimp only
      cases keySet with
      | false =>
        simp only [Bool.not_false, if_true]
        exact handleException_good txn db totalMs false Option.none
          (.http 500 "Claude API not configured")
      | true =>
        simp only [Bool.not_true, Bool.false_eq_true, if_false]
        cases hcc : call_claude parse api with
        | error e => exact handleException_good txn db totalMs true Option.none e
        | ok pr =>
          obtain ⟨parsed, metrics⟩ := pr
          dsimp only
          cases hsp : successPrelude parsed with
          | error e =>
            exact handleException_good txn db totalMs true Option.none e
          | ok dc =>
            obtain ⟨dictamen, capacidad⟩ := dc
            dsimp only
            by_cases ha : db.avail = true
            · rw [if_pos ha]
              cases har : auditFieldReads dictamen capacidad with
              | error e =>
                exact handleException_good txn db totalMs true Option.none e
              | ok u =>
                dsimp only
                cases hsc1 : db.successCommitErr with
                | some e2 =>
                  exact handleException_good txn db totalMs true Option.none e2
                | none =>
                  dsimp only
                  cases hrf : db.refreshErr with
                  | some e3 =>
                    exact handleException_good txn db totalMs true
                      (some (successRow totalMs)) e3
                  | none =>
                    dsimp only
                    cases hco : successCore dictamen capacidad parsed with
                    | error e =>
                      exact handleException_good txn db totalMs true
                        (some (successRow totalMs)) e
                    | ok core =>
                      dsimp only
                      refine ⟨?_, fun e2 h => Except.noConfusion h⟩
                      intro resp h
                      injection h with h2
                      rw [← h2]
                      exact ⟨rfl, rfl, Or.inl rfl⟩
            · rw [if_neg ha]
              cases hco : successCore dictamen capacidad parsed with
              | error e =>
                exact handleException_good txn db totalMs true Option.none e
              | ok core =>
                dsimp only
                refine ⟨?_, fun e2 h => Except.noConfusion h⟩
                intro resp h
                injection h with h2
                rw [← h2]
                exact ⟨rfl, rfl, Or.inl rfl⟩


/-- C2 counterexample: a failing invocation whose enrichment bundle lacks
the bureau summary makes `validate_credit` RE-RAISE the 422
`HTTPException` — the caller gets no structured result object carrying
transaction id, status, error and latency. -/
theorem claim_C2_counterexample :
    (validate_credit "txn2" dbUp true cacheHit 0 buroMissingEnv 5
      parseEmptyObj apiEmptyObj 42).response =
      .error (.http 422 "Buró data not available") := rfl

/-- C2 witness: a reasoning-service failure against a healthy store
yields the structured error result with the transaction id, `ERROR`
status, the exception message and the latency; and the exception that
escapes when the error-path commit raises is exactly that database
error, not an `HTTPException`. -/
theorem claim_C2_witness :
    ({ transaction_id := "txn3", status := "ERROR",
       error := some "overloaded", latency_ms := some 42 } :
      ValidationResponse).transaction_id = "txn3" ∧
    ({ transaction_id := "txn3", status := "ERROR",
       error := some "overloaded", latency_ms := some 42 } :
      ValidationResponse).latency_ms = some 42 ∧
    (({ transaction_id := "txn3", status := "ERROR",
        error := some "overloaded", latency_ms := some 42 } :
      ValidationResponse).status = "SUCCESS" ∨
     (({ transaction_id := "txn3", status := "ERROR",
         error := some "overloaded", latency_ms := some 42 } :
       ValidationResponse).status = "ERROR" ∧
      ({ transaction_id := "txn3", status := "ERROR",
         error := some "overloaded", latency_ms := some 42 } :
        ValidationResponse).error.isSome = true)) ∧
    ((PyErr.dbError "connection lost").isHTTP = true ∨
     (dbErrCommit.avail = true ∧
      dbErrCommit.errorCommitErr = some (.dbError "connection lost"))) := by
  have h1 := (claim_C2 "txn3" dbUp true cacheHit 0 goodEnv 5 parseEmptyObj
    (fun _ => .apiError (.apiError "overloaded")) 42).1
    { transaction_id := "txn3", status := "ERROR",
      error := some "overloaded", latency_ms := some 42 } rfl
  have h2 := (claim_C2 "txn4" dbErrCommit true cacheHit 0 goodEnv 5
    parseEmptyObj (fun _ => .apiError (.apiError "overloaded")) 42).2
    (.dbError "connection lost") rfl
  exact ⟨h1.1, h1.2.1, h1.2.2, h2⟩

/-- C1 (amended): with a missing bureau summary in the enrichment bundle,
acquisition fails with the 422 `EvidenceIncomplete`-class `HTTPException`
naming the bureau data, and `validate_credit` re-raises it: the reasoning
service is never called, and — because the `except HTTPException: raise`
branch runs no `db.add`/`db.commit` — NO audit row is persisted (in
particular none with status `ERROR`), whatever the state of the audit
store. -/
theorem claim_C1 (txn : String) (st : TokenCacheState) (now : Int)
    (env : KalaEnv) (kalaMs : Int) (tok : PyVal)
    (hcache : TokenCache.get_token st now = some tok)
    (htasks : env.tasksResp.status < 400)
    (hperson : env.personResp.status < 400)
    (hext : env.extdataResp.status < 400)
    (pxs : List (String × PyVal))
    (hpbody : env.personResp.body = .dict pxs)
    (hpid : (fieldD pxs "id" .none).truthy = true)
    (exs : List (String × PyVal))
    (hebody : env.extdataResp.body = .dict exs)
    (hocr : (fieldD exs "summaryTrebolOcr" .none).truthy = true)
    (hburo : (fieldD exs "customSummaryBuro" .none).truthy = false) :
    get_transaction_data txn st now env kalaMs =
      .error (.http 422 "Buró data not available") ∧
    ∀ (db : DbEnv) (keySet : Bool) (parse : String → Option PyVal)
      (api : Nat → AttemptResult) (totalMs : Int),
      (validate_credit txn db keySet st now env kalaMs parse api
        totalMs).response = .error (.http 422 "Buró data not available") ∧
      (validate_credit txn db keySet st now env kalaMs parse api
        totalMs).claudeCalled = false ∧
      (validate_credit txn db keySet st now env kalaMs parse api
        totalMs).audit = Option.none := by
  have hacq : get_transaction_data txn st now env kalaMs =
      .error (.http 422 "Buró data not available") := by
    unfold get_transaction_data ensure_token
    rw [hcache]
    rw [show raiseForStatus env.tasksResp = .ok () from by
      unfold raiseForStatus; rw [if_neg (Nat.not_le.mpr htasks)]]
    rw [show raiseForStatus env.personResp = .ok () from by
      unfold raiseForStatus; rw [if_neg (Nat.not_le.mpr hperson)]]
    rw [show raiseForStatus env.extdataResp = .ok () from by
      unfold raiseForStatus; rw [if_neg (Nat.not_le.mpr hext)]]
    rw [hpbody, hebody]
    simp only [except_bind_ok, get_dict_eq, hpid, hocr, hburo, Bool.not_true,
      Bool.not_false, Bool.false_eq_true, if_false, if_true]
  refine ⟨hacq, ?_⟩
  intro db keySet parse api totalMs
  unfold validate_credit
  rw [hacq]
  unfold handleException PyErr.isHTTP
  rw [if_pos rfl]
  exact ⟨rfl, rfl, rfl⟩

/-- C1 counterexample: in the concrete missing-bureau scenario with the
audit store AVAILABLE and healthy, no audit row at all is persisted — the
claim's "audit record finalized with status ERROR and a non-empty error
detail" fails (while the 422 failure-at-acquisition and the absence of
any reasoning call do hold). -/
theorem claim_C1_counterexample :
    (validate_credit "txn1" dbUp true cacheHit 0 buroMissingEnv 5
      parseEmptyObj apiEmptyObj 42).audit = Option.none ∧
    (validate_credit "txn1" dbUp true cacheHit 0 buroMissingEnv 5
      parseEmptyObj apiEmptyObj 42).response =
      .error (.http 422 "Buró data not available") ∧
    (validate_credit "txn1" dbUp true cacheHit 0 buroMissingEnv 5
      parseEmptyObj apiEmptyObj 42).claudeCalled = false :=
  ⟨rfl, rfl, rfl⟩

/-- C1 witness: the amended claim at the concrete missing-bureau
scenario with the store unavailable. -/
theorem claim_C1_witness :
    get_transaction_data "txn1" cacheHit 0 buroMissingEnv 5 =
      .error (.http 422 "Buró data not available") ∧
    (validate_credit "txn1" dbDown true cacheHit 0 buroMissingEnv 5
      parseEmptyObj apiEmptyObj 42).claudeCalled = false ∧
    (validate_credit "txn1" dbDown true cacheHit 0 buroMissingEnv 5
      parseEmptyObj apiEmptyObj 42).audit = Option.none := by
  have h := claim_C1 "txn1" cacheHit 0 buroMissingEnv 5 (.str "tk") rfl
    (by decide) (by decide) (by decide) [("id", .str "p1")] rfl (by decide)
    [("summaryTrebolOcr", .list [.dict []]),
     ("summaryTruoraBackgroundChecks", .dict [("enrichment",
       .dict [("numberOfProcesses", .int 0)])])] rfl (by decide) (by decide)
  have h2 := h.2 dbDown true parseEmptyObj apiEmptyObj 42
  exact ⟨h.1, h2.2.1, h2.2.2⟩


theorem auditFieldReads_error (dictamen capacidad parsed : PyVal) (e : PyErr)
    (h : auditFieldReads dictamen capacidad = .error e) :
    successCore dictamen capacidad parsed = .error e := by
  cases dictamen <;> cases capacidad <;>
    first
    | exact Except.noConfusion
        (show (Except.ok () : Except PyErr Unit) = Except.error e from h)
    | (have h2 : (Except.error (PyErr.attrError "object has no attribute get") :
          Except PyErr Unit) = Except.error e := h;
       injection h2 with h3; rw [← h3]; rfl)

theorem handleException_db (txn : String) (ce1 ce2 ce3 : Option PyErr)
    (g1 g2 : Nat) (totalMs : Int) (called : Bool) (pT : Option AuditRow)
    (e : PyErr) :
    (handleException txn ⟨false, ce1, ce2, ce3, g1⟩ totalMs called
      Option.none e).response =
      (handleException txn ⟨true, Option.none, Option.none, Option.none, g2⟩
        totalMs called pT e).response ∧
    (handleException txn ⟨false, ce1, ce2, ce3, g1⟩ totalMs called
      Option.none e).claudeCalled = called ∧
    (handleException txn ⟨true, Option.none, Option.none, Option.none, g2⟩
      totalMs called pT e).claudeCalled = called ∧
    (handleException txn ⟨false, ce1, ce2, ce3, g1⟩ totalMs called
      Option.none e).audit = Option.none ∧
    (∀ resp, (handleException txn ⟨false, ce1, ce2, ce3, g1⟩ totalMs called
        Option.none e).response = .ok resp →
      resp.audit_id = Option.none) := by
  unfold handleException
  by_cases hh : e.isHTTP = true
  · rw [if_pos hh, if_pos hh]
    exact ⟨rfl, rfl, rfl, rfl, fun resp hr => Except.noConfusion hr⟩
  · rw [if_neg hh, if_neg hh]
    refine ⟨rfl, rfl, rfl, rfl, ?_⟩
    intro resp hr
    have hr2 : Except.ok
        ({ transaction_id := txn, status := "ERROR",
           error := some e.msg, latency_ms := some totalMs } :
          ValidationResponse) = Except.ok resp := hr
    injection hr2 with h2
    rw [← h2]


/-- C8: with the audit store unavailable (`SessionLocal is None`,
lines 610-616 guard every persistence site) the endpoint still runs the
full pipeline: no audit row is ever persisted, the reasoning service is
invoked exactly as it would be with a healthy available store, every
caller-visible outcome agrees with the healthy-store run up to the
`audit_id` field, and a returned response carries no `audit_id`. -/
theorem claim_C8 (txn : String) (ce1 ce2 ce3 : Option PyErr) (g1 g2 : Nat)
    (keySet : Bool) (st : TokenCacheState) (now : Int) (env : KalaEnv)
    (kalaMs : Int) (parse : String → Option PyVal)
    (api : Nat → AttemptResult) (totalMs : Int) :
    (validate_credit txn ⟨false, ce1, ce2, ce3, g1⟩ keySet st now env kalaMs
      parse api totalMs).audit = Option.none ∧
    (validate_credit txn ⟨false, ce1, ce2, ce3, g1⟩ keySet st now env kalaMs
      parse api totalMs).claudeCalled =
      (validate_credit txn ⟨true, Option.none, Option.none, Option.none, g2⟩
        keySet st now env kalaMs parse api totalMs).claudeCalled ∧
    stripAuditId (validate_credit txn ⟨false, ce1, ce2, ce3, g1⟩ keySet st now
      env kalaMs parse api totalMs).response =
      stripAuditId (validate_credit txn ⟨true, Option.none, Option.none,
        Option.none, g2⟩ keySet st now env kalaMs parse api
        totalMs).response ∧
    (∀ resp, (validate_credit txn ⟨false, ce1, ce2, ce3, g1⟩ keySet st now env
        kalaMs parse api totalMs).response = .ok resp →
      resp.audit_id = Option.none) := by
  unfold validate_credit
  cases hg : get_transaction_data txn st now env kalaMs with
  | error e =>
    obtain ⟨hr, hc1, hc2, ha, hok⟩ := handleException_db txn ce1 ce2 ce3 g1 g2
      totalMs false Option.none e
    exact ⟨ha, by rw [hc1, hc2], by rw [hr], hok⟩
  | ok p =>
    obtain ⟨data, st2⟩ := p
    dsimp only
    cases hcd : consolidate_data txn data.ocr data.buro data.truora
        (.list data.tasks) with
    | error e =>
      obtain ⟨hr, hc1, hc2, ha, hok⟩ := handleException_db txn ce1 ce2 ce3 g1
        g2 totalMs false Option.none e
      exact ⟨ha, by rw [hc1, hc2], by rw [hr], hok⟩
    | ok cdoc =>
      dsimp only
      cases keySet with
      | false =>
        simp only [Bool.not_false, if_true]
        obtain ⟨hr, hc1, hc2, ha, hok⟩ := handleException_db txn ce1 ce2 ce3
          g1 g2 totalMs false Option.none (.http 500 "Claude API not configured")
        exact ⟨ha, by rw [hc1, hc2], by rw [hr], hok⟩
      | true =>
        simp only [Bool.not_true, Bool.false_eq_true, if_false]
        cases hcc : call_claude parse api with
        | error e =>
          obtain ⟨hr, hc1, hc2, ha, hok⟩ := handleException_db txn ce1 ce2 ce3
            g1 g2 totalMs true Option.none e
          exact ⟨ha, by rw [hc1, hc2], by rw [hr], hok⟩
        | ok pm =>
          obtain ⟨parsed, metrics⟩ := pm
          dsimp only
          cases hsp : successPrelude parsed with
          | error e =>
            obtain ⟨hr, hc1, hc2, ha, hok⟩ := handleException_db txn ce1 ce2
              ce3 g1 g2 totalMs true Option.none e
            exact ⟨ha, by rw [hc1, hc2], by rw [hr], hok⟩
          | ok dc =>
            obtain ⟨dictamen, capacidad⟩ := dc
            dsimp only
            simp only [if_true]
            cases har : auditFieldReads dictamen capacidad with
            | error e =>
              rw [auditFieldReads_error dictamen capacidad parsed e har]
              dsimp only
              obtain ⟨hr, hc1, hc2, ha, hok⟩ := handleException_db txn ce1 ce2
                ce3 g1 g2 totalMs true Option.none e
              exact ⟨ha, by rw [hc1, hc2], by rw [hr], hok⟩
            | ok u =>
              dsimp only
              cases hco : successCore dictamen capacidad parsed with
              | error e =>
                obtain ⟨hr, hc1, hc2, ha, hok⟩ := handleException_db txn ce1
                  ce2 ce3 g1 g2 totalMs true (some (successRow totalMs)) e
                exact ⟨ha, by rw [hc1, hc2], by rw [hr], hok⟩
              | ok core =>
                refine ⟨rfl, rfl, rfl, ?_⟩
                intro resp h
                have h2 : Except.ok (toSuccessResponse txn core totalMs
                    Option.none) = Except.ok resp := h
                injection h2 with h3
                rw [← h3]
                rfl


/-- C8 witness: the full-success scenario run against the unavailable
store versus the healthy available store. -/
theorem claim_C8_witness :
    (validate_credit "txn8" dbDown true cacheHit 0 goodEnv 5 parseEmptyObj
      apiEmptyObj 42).audit = Option.none ∧
    (validate_credit "txn8" dbDown true cacheHit 0 goodEnv 5 parseEmptyObj
      apiEmptyObj 42).claudeCalled =
      (validate_credit "txn8" dbUp true cacheHit 0 goodEnv 5 parseEmptyObj
        apiEmptyObj 42).claudeCalled ∧
    stripAuditId (validate_credit "txn8" dbDown true cacheHit 0 goodEnv 5
      parseEmptyObj apiEmptyObj 42).response =
      stripAuditId (validate_credit "txn8" dbUp true cacheHit 0 goodEnv 5
        parseEmptyObj apiEmptyObj 42).response ∧
    (∀ resp, (validate_credit "txn8" dbDown true cacheHit 0 goodEnv 5
        parseEmptyObj apiEmptyObj 42).response = .ok resp →
      resp.audit_id = Option.none) :=
  claim_C8 "txn8" Option.none Option.none Option.none 7 7 true cacheHit 0
    goodEnv 5 parseEmptyObj apiEmptyObj 42


theorem successCore_resumen (dictamen capacidad parsed : PyVal)
    (core : SuccessCore)
    (h : successCore dictamen capacidad parsed = .ok core) :
    (∃ s, core.resumen = some s ∧ s.length ≤ 300) ∧
    (∀ v, parsed.get "resumen" .none = .ok v → v.truthy = false →
      core.resumen = some "") := by
  unfold successCore at h
  simp only [bind, Except.bind, pure, Except.pure] at h
  cases h3 : dictamen.get "decision" .none with
  | error e => rw [h3] at h; exact Except.noConfusion h
  | ok decisionV =>
  rw [h3] at h; dsimp only at h
  cases h4 : dictamen.get "producto" .none with
  | error e => rw [h4] at h; exact Except.noConfusion h
  | ok productoV =>
  rw [h4] at h; dsimp only at h
  cases h5 : dictamen.get "montoMaximo" .none with
  | error e => rw [h5] at h; exact Except.noConfusion h
  | ok montoV =>
  rw [h5] at h; dsimp only at h
  cases h6 : dictamen.get "plazoMaximo" .none with
  | error e => rw [h6] at h; exact Except.noConfusion h
  | ok plazoV =>
  rw [h6] at h; dsimp only at h
  cases h7 : capacidad.get "capacidadDisponible" .none with
  | error e => rw [h7] at h; exact Except.noConfusion h
  | ok capV =>
  rw [h7] at h; dsimp only at h
  cases h8 : parsed.get "resumen" .none with
  | error e => rw [h8] at h; exact Except.noConfusion h
  | ok resumenV =>
  rw [h8] at h; dsimp only at h
  cases h9 : pySlice (pyOr resumenV (.str "")) 300 with
  | error e => rw [h9] at h; exact Except.noConfusion h
  | ok resumenSliced =>
  rw [h9] at h; dsimp only at h
  cases h10 : coerceOptStr decisionV with
  | error e => rw [h10] at h; exact Except.noConfusion h
  | ok decisionF =>
  rw [h10] at h; dsimp only at h
  cases h11 : coerceOptStr productoV with
  | error e => rw [h11] at h; exact Except.noConfusion h
  | ok productoF =>
  rw [h11] at h; dsimp only at h
  cases h12 : coerceOptNum montoV with
  | error e => rw [h12] at h; exact Except.noConfusion h
  | ok montoF =>
  rw [h12] at h; dsimp only at h
  cases h13 : coerceOptNum plazoV with
  | error e => rw [h13] at h; exact Except.noConfusion h
  | ok plazoF =>
  rw [h13] at h; dsimp only at h
  cases h14 : coerceOptNum capV with
  | error e => rw [h14] at h; exact Except.noConfusion h
  | ok capF =>
  rw [h14] at h; dsimp only at h
  cases h15 : coerceOptStr resumenSliced with
  | error e => rw [h15] at h; exact Except.noConfusion h
  | ok resumenF =>
  rw [h15] at h; dsimp only at h
  cases h16 : coerceOptDict parsed with
  | error e => rw [h16] at h; exact Except.noConfusion h
  | ok dcompF =>
  rw [h16] at h; dsimp only at h
  injection h with h17
  constructor
  · rw [← h17]
    dsimp only
    cases hp : pyOr resumenV (.str "") with
    | str s =>
      rw [hp] at h9
      unfold pySlice at h9
      injection h9 with h9b
      rw [← h9b] at h15
      unfold coerceOptStr at h15
      injection h15 with h15b
      refine ⟨String.mk (s.toList.take 300), h15b.symm, ?_⟩
      show (String.mk (s.toList.take 300)).length ≤ 300
      have hlen : (String.mk (s.toList.take 300)).length =
          (s.toList.take 300).length := rfl
      rw [hlen, List.length_take]
      exact min_le_left _ _
    | list xs =>
      rw [hp] at h9
      unfold pySlice at h9
      injection h9 with h9b
      rw [← h9b] at h15
      exact Except.noConfusion h15
    | none => rw [hp] at h9; exact Except.noConfusion h9
    | bool b => rw [hp] at h9; exact Except.noConfusion h9
    | int n => rw [hp] at h9; exact Except.noConfusion h9
    | dict xs => rw [hp] at h9; exact Except.noConfusion h9
  · intro v hv hfalsy
    injection hv with hv2
    rw [← hv2] at hfalsy
    have hor : pyOr resumenV (.str "") = .str "" := by
      simp [pyOr, hfalsy]
    rw [hor] at h9
    unfold pySlice at h9
    injection h9 with h9b
    rw [← h9b] at h15
    unfold coerceOptStr at h15
    injection h15 with h15b
    rw [← h17]
    dsimp only
    rw [← h15b]
    rfl


theorem handleException_not_success (txn : String) (db : DbEnv)
    (totalMs : Int) (called : Bool) (prior : Option AuditRow) (e : PyErr)
    (resp : ValidationResponse)
    (h : (handleException txn db totalMs called prior e).response =
      .ok resp) :
    resp.status = "ERROR" := by
  unfold handleException at h
  by_cases hh : e.isHTTP = true
  · rw [if_pos hh] at h
    exact Except.noConfusion h
  · rw [if_neg hh] at h
    by_cases ha : db.avail = true
    · rw [if_pos ha] at h
      cases hce : db.errorCommitErr with
      | some e2 =>
        rw [hce] at h
        exact Except.noConfusion h
      | none =>
        rw [hce] at h
        injection h with h2
        rw [← h2]
    · rw [if_neg ha] at h
      injection h with h2
      rw [← h2]


/-- C10 (implicit): every `SUCCESS` response returned by `validate_credit`
carries a `resumen` that is a present string of at most 300 characters
(the `[:300]` slice at line 674 — not the 250 the reasoning-service
schema nominally announces), and when the parsed decision carries no
truthy `resumen` the field is the empty string rather than absent. -/
theorem claim_C10 (txn : String) (db : DbEnv) (keySet : Bool)
    (st : TokenCacheState) (now : Int) (env : KalaEnv) (kalaMs : Int)
    (parse : String → Option PyVal) (api : Nat → AttemptResult)
    (totalMs : Int) (resp : ValidationResponse)
    (hresp : (validate_credit txn db keySet st now env kalaMs parse api
      totalMs).response = .ok resp)
    (hstatus : resp.status = "SUCCESS") :
    (∃ s, resp.resumen = some s ∧ s.length ≤ 300) ∧
    (∀ (parsed : PyVal) (m : ClaudeMetrics) (v : PyVal),
      call_claude parse api = .ok (parsed, m) →
      parsed.get "resumen" .none = .ok v → v.truthy = false →
      resp.resumen = some "") := by
  unfold validate_credit at hresp
  cases hg : get_transaction_data txn st now env kalaMs with
  | error e =>
    rw [hg] at hresp
    dsimp only at hresp
    exact absurd (hstatus.symm.trans
      (handleException_not_success txn db totalMs false Option.none e resp
        hresp)) (by decide)
  | ok p =>
    obtain ⟨data, st2⟩ := p
    rw [hg] at hresp
    dsimp only at hresp
    cases hcd : consolidate_data txn data.ocr data.buro data.truora
        (.list data.tasks) with
    | error e =>
      rw [hcd] at hresp
      dsimp only at hresp
      exact absurd (hstatus.symm.trans
        (handleException_not_success txn db totalMs false Option.none e resp
          hresp)) (by decide)
    | ok cdoc =>
      rw [hcd] at hresp
      dsimp only at hresp
      cases keySet with
      | false =>
        simp only [Bool.not_false, if_true] at hresp
        exact absurd (hstatus.symm.trans
          (handleException_not_success txn db totalMs false Option.none
            (.http 500 "Claude API not configured") resp hresp)) (by decide)
      | true =>
        simp only [Bool.not_true, Bool.false_eq_true, if_false] at hresp
        cases hcc : call_claude parse api with
        | error e =>
          rw [hcc] at hresp
          dsimp only at hresp
          exact absurd (hstatus.symm.trans
            (handleException_not_success txn db totalMs true Option.none e
              resp hresp)) (by decide)
        | ok pr =>
          obtain ⟨parsed, metrics⟩ := pr
          rw [hcc] at hresp
          dsimp only at hresp
          cases hsp : successPrelude parsed with
          | error e =>
            rw [hsp] at hresp
            dsimp only at hresp
            exact absurd (hstatus.symm.trans
              (handleException_not_success txn db totalMs true Option.none e
                resp hresp)) (by decide)
          | ok dc =>
            obtain ⟨dictamen, capacidad⟩ := dc
            rw [hsp] at hresp
            dsimp only at hresp
            by_cases ha : db.avail = true
            · rw [if_pos ha] at hresp
              cases har : auditFieldReads dictamen capacidad with
              | error e =>
                rw [har] at hresp
                dsimp only at hresp
                exact absurd (hstatus.symm.trans
                  (handleException_not_success txn db totalMs true Option.none
                    e resp hresp)) (by decide)
              | ok u =>
                rw [har] at hresp
                dsimp only at hresp
                cases hsc1 : db.successCommitErr with
                | some e2 =>
                  rw [hsc1] at hresp
                  dsimp only at hresp
                  exact absurd (hstatus.symm.trans
                    (handleException_not_success txn db totalMs true
                      Option.none e2 resp hresp)) (by decide)
                | none =>
                  rw [hsc1] at hresp
                  dsimp only at hresp
                  cases hrf : db.refreshErr with
                  | some e3 =>
                    rw [hrf] at hresp
                    dsimp only at hresp
                    exact absurd (hstatus.symm.trans
                      (handleException_not_success txn db totalMs true
                        (some (successRow totalMs)) e3 resp hresp)) (by decide)
                  | none =>
                    rw [hrf] at hresp
                    dsimp only at hresp
                    cases hsc : successCore dictamen capacidad parsed with
                    | error e =>
                      rw [hsc] at hresp
                      dsimp only at hresp
                      exact absurd (hstatus.symm.trans
                        (handleException_not_success txn db totalMs true
                          (some (successRow totalMs)) e resp hresp))
                        (by decide)
                    | ok core =>
                      rw [hsc] at hresp
                      dsimp only at hresp
                      injection hresp with h2
                      obtain ⟨hbound, hempty⟩ :=
                        successCore_resumen dictamen capacidad parsed core hsc
                      constructor
                      · rw [← h2]
                        exact hbound
                      · intro parsed2 m2 v hcc2 hv hfalsy
                        injection hcc2 with h3
                        injection h3 with h3a h3b
                        rw [← h2]
                        exact hempty v (h3a ▸ hv) hfalsy
            · rw [if_neg ha] at hresp
              cases hsc : successCore dictamen capacidad parsed with
              | error e =>
                rw [hsc] at hresp
                dsimp only at hresp
                exact absurd (hstatus.symm.trans
                  (handleException_not_success txn db totalMs true Option.none
                    e resp hresp)) (by decide)
              | ok core =>
                rw [hsc] at hresp
                dsimp only at hresp
                injection hresp with h2
                obtain ⟨hbound, hempty⟩ :=
                  successCore_resumen dictamen capacidad parsed core hsc
                constructor
                · rw [← h2]
                  exact hbound
                · intro parsed2 m2 v hcc2 hv hfalsy
                  injection hcc2 with h3
                  injection h3 with h3a h3b
                  rw [← h2]
                  exact hempty v (h3a ▸ hv) hfalsy


/-- C10 witness: the concrete full-success run against the healthy store
returns `resumen = some ""` (present, empty, within the 300-character
bound). -/
theorem claim_C10_witness :
    ({ transaction_id := "txn10", status := "SUCCESS", resumen := some "",
       dictamen_completo := some (.dict []), latency_ms := some 42,
       audit_id := some 7 } : ValidationResponse).resumen = some "" := by
  have h := claim_C10 "txn10" dbUp true cacheHit 0 goodEnv 5 parseEmptyObj
    apiEmptyObj 42
    { transaction_id := "txn10", status := "SUCCESS", resumen := some "",
      dictamen_completo := some (.dict []), latency_ms := some 42,
      audit_id := some 7 } rfl rfl
  exact h.2 (.dict []) ⟨0, 120, 30, 800, some emptyObjStr⟩ .none rfl rfl rfl

end Kala
